import Mathlib

/-!
# Network parameter registry (`chainparams.cpp`)

A shallow embedding of `src/chainparams.cpp`: the three per-network
constructors `CMainParams`, `CTestNetParams`, `CRegTestParams`, the
process-wide slot `globalChainParams`, and the operations `Params`,
`CreateChainParams` and `SelectParams`.

Conventions.
* A C++ call has three possible outcomes: it returns, it throws
  `std::runtime_error`, or a failed `assert` aborts the process. These are
  the three constructors of `Outcome`. Assertions are modelled as enabled.
* Collaborators whose code lives in other translation units
  (`CreateGenesisBlock`, `CBlock::GetHash`, `ParseHex`, the seed tables, the
  base-class constructor, `SelectBaseParams`) are fields of `Env`; every
  theorem quantifies over them.
* `uint256` values are natural numbers below `2^256`.
-/

namespace ChainParams

set_option autoImplicit false

/-! ## Outcomes of a call -/

/-- Result of running a C++ call: normal return, a thrown
`std::runtime_error` carrying its message, or a process abort caused by a
failed `assert`. -/
inductive Outcome (α : Type) where
  | ok : α → Outcome α
  | throw : String → Outcome α
  | abort : Outcome α
  deriving Repr, DecidableEq

namespace Outcome

/-- Sequencing: the first failure ends the computation. -/
def bind {α β : Type} (x : Outcome α) (f : α → Outcome β) : Outcome β :=
  match x with
  | ok a => f a
  | throw e => throw e
  | abort => abort

instance : Monad Outcome where
  pure := Outcome.ok
  bind := Outcome.bind

/-- Whether the call returned normally. -/
def isOk {α : Type} : Outcome α → Bool
  | ok _ => true
  | _ => false

end Outcome

/-- The C `assert(cond)`: continues when `cond` holds, aborts otherwise. -/
def assert (cond : Bool) : Outcome Unit :=
  if cond then Outcome.ok () else Outcome.abort

/-! ## 256-bit values -/

/-- A 256-bit unsigned value, held as a natural number below `2^256`. -/
abbrev uint256 := Nat

/-- Value of one hexadecimal digit, `none` for any other character
(`HexDigit` returning `-1`). -/
def HexDigit (c : Char) : Option Nat :=
  if '0' ≤ c ∧ c ≤ '9' then some (c.toNat - '0'.toNat)
  else if 'a' ≤ c ∧ c ≤ 'f' then some (c.toNat - 'a'.toNat + 10)
  else if 'A' ≤ c ∧ c ≤ 'F' then some (c.toNat - 'A'.toNat + 10)
  else none

/-- The C `isspace` in the default locale. -/
def isspace (c : Char) : Bool :=
  c = ' ' ∨ (9 ≤ c.toNat ∧ c.toNat ≤ 13)

/-- Drops an optional `0x` / `0X` prefix. -/
def skip0x : List Char → List Char
  | '0' :: 'x' :: rest => rest
  | '0' :: 'X' :: rest => rest
  | cs => cs

/-- Reads the longest run of hexadecimal digits at the front of the list as
a big-endian numeral, starting from the accumulator `acc`. -/
def readHex (acc : Nat) : List Char → Nat
  | [] => acc
  | c :: cs =>
    match HexDigit c with
    | some d => readHex (16 * acc + d) cs
    | none => acc

/-- Modelled from the spec: `uint256S` (declared in `uint256.h`) is not in
`src/`. The spec calls its results "literal expected 256-bit values"; the
string is read as a hexadecimal numeral (leading blanks and an optional `0x`
skipped, reading stops at the first non-digit) and the low 256 bits are
kept. -/
def uint256S (s : String) : uint256 :=
  readHex 0 (skip0x (s.toList.dropWhile isspace)) % 2 ^ 256

/-! ## Data model -/

/-- Modelled from the spec: `CBlock` (declared in `primitives/block.h`) is
not in `src/`. The spec's genesis anchor has a block header with version,
previous hash, Merkle root, timestamp, difficulty bits and nonce; the
constructors read `hashMerkleRoot` and pass the block to `GetHash`. -/
structure CBlock where
  nVersion : Int
  hashPrevBlock : uint256
  hashMerkleRoot : uint256
  nTime : Nat
  nBits : Nat
  nNonce : Nat
  deriving Repr, DecidableEq

/-- An entry of a fixed-seed table: sixteen address bytes and a port
(`SeedSpec6`, declared outside `src/`). -/
structure SeedSpec6 where
  addr : List Nat
  port : Nat
  deriving Repr, DecidableEq

/-- The fields of `Consensus::Params` that `chainparams.cpp` assigns. -/
structure Consensus.Params where
  hashGenesisBlock : uint256
  BIP16Height : Int
  BIP34Height : Int
  BIP34Hash : uint256
  powLimit : uint256
  nTargetTimespan : Int
  nStakeTargetSpacing : Int
  nTargetSpacingWorkMax : Int
  nPowTargetSpacing : Int
  nStakeMinConfirmations : Int
  nCoinbaseMaturity : Int
  nDgwPastBlocks : Int
  warmUpPOWBlock : Int
  nTotalPOWBlock : Int
  nStartMiningTime : Int
  stakeStopHeight : Int
  fPowAllowMinDifficultyBlocks : Bool
  fPowNoRetargeting : Bool
  nMinimumChainWork : uint256
  defaultAssumeValid : uint256
  deriving Repr, DecidableEq

/-- Index of the address-encoding prefix table `base58Prefixes`. -/
inductive Base58Type where
  | PUBKEY_ADDRESS
  | SCRIPT_ADDRESS
  | SECRET_KEY
  | EXT_PUBLIC_KEY
  | EXT_SECRET_KEY
  deriving Repr, DecidableEq, Fintype

open Base58Type

/-- Modelled from the spec: `MapCheckpoints` (a `std::map<int, uint256>`
declared in `chainparams.h`) is not in `src/`. The spec describes the
checkpoint table as an ordered sequence of (height, hash) pairs; it is held
here as the list of the map's entries in key order. -/
abbrev MapCheckpoints := List (Int × uint256)

/-- Insertion into the map: the entry goes to its place in key order; an
entry whose key is already present is dropped, as `std::map::insert`
does. -/
def MapCheckpoints.insert : MapCheckpoints → Int × uint256 → MapCheckpoints
  | [], e => [e]
  | x :: xs, e =>
    if e.1 < x.1 then e :: x :: xs
    else if e.1 = x.1 then x :: xs
    else x :: MapCheckpoints.insert xs e

/-- Construction of the map from a braced initializer list: the entries are
inserted one after the other. -/
def MapCheckpoints.ofList (l : List (Int × uint256)) : MapCheckpoints :=
  l.foldl MapCheckpoints.insert []

/-- Lookup of the hash recorded at a height. -/
def MapCheckpoints.find (m : MapCheckpoints) (height : Int) : Option uint256 :=
  (List.find? (fun e => e.1 == height) m).map Prod.snd

/-- The checkpoint table of a parameter set (`CCheckpointData`). -/
structure CCheckpointData where
  mapCheckpoints : MapCheckpoints
  deriving Repr, DecidableEq

/-- The chain statistics snapshot (`ChainTxData`); the transaction rate is a
`double` in the program and every value stored here is the literal `0`. -/
structure ChainTxData where
  nTime : Int
  nTxCount : Int
  dTxRate : Int
  deriving Repr, DecidableEq

/-- The fields of `CChainParams` that `chainparams.cpp` assigns. -/
structure CChainParams where
  consensus : Consensus.Params
  pchMessageStart : Fin 4 → Nat
  vAlertPubKey : List Nat
  nDefaultPort : Int
  genesis : CBlock
  vSeeds : List String
  vFixedSeeds : List SeedSpec6
  base58Prefixes : Base58Type → List Nat
  bech32_hrp : String
  strNetworkID : String
  nMiningRequiresPeers : Int
  fDefaultConsistencyChecks : Bool
  fRequireStandard : Bool
  fMineBlocksOnDemand : Bool
  checkpointData : CCheckpointData
  chainTxData : ChainTxData
  deriving DecidableEq

/-- Everything the constructors and `SelectParams` call that is defined in
another translation unit. -/
structure Env where
  /-- `CreateGenesisBlock(nTime, nNonce, nBits, nVersion, genesisReward)`
  from `genesis.h`. -/
  CreateGenesisBlock : Nat → Nat → Nat → Int → Int → CBlock
  /-- The block header digest `CBlock::GetHash`. -/
  GetHash : CBlock → uint256
  /-- `ParseHex` from `utilstrencodings.h`. -/
  ParseHex : String → List Nat
  /-- The table `pnSeed6_main` of `chainparamsseeds.h`. -/
  pnSeed6_main : List SeedSpec6
  /-- The table `pnSeed6_test` of `chainparamsseeds.h`. -/
  pnSeed6_test : List SeedSpec6
  /-- The object as the base-class constructor of `CChainParams` leaves it,
  before the body of the derived constructor runs. -/
  baseInit : CChainParams
  /-- `SelectBaseParams` from `chainparamsbase.cpp`, as far as this file can
  observe it: it returns, throws or aborts. -/
  SelectBaseParams : String → Outcome Unit

/-! ## The constructors -/

/-- The constructor `CMainParams::CMainParams`. -/
def CMainParams (env : Env) : Outcome CChainParams := do
  let mut p := env.baseInit
  p := { p with strNetworkID := "main" }
  p := { p with consensus.BIP16Height := 0 }
  p := { p with consensus.BIP34Height := 0 }
  p := { p with consensus.powLimit :=
    (uint256S "00000fffffffffffffffffffffffffffffffffffffffffffffffffffffffffff") }
  p := { p with consensus.nTargetTimespan := 24 * 60 }
  p := { p with consensus.nStakeTargetSpacing := 2 * 60 }
  p := { p with consensus.nTargetSpacingWorkMax := 12 * p.consensus.nStakeTargetSpacing }
  p := { p with consensus.nPowTargetSpacing := p.consensus.nStakeTargetSpacing }
  p := { p with consensus.nStakeMinConfirmations := 240 }
  p := { p with consensus.nCoinbaseMaturity := 100 }
  p := { p with consensus.nDgwPastBlocks := 30 }
  p := { p with consensus.warmUpPOWBlock := 1440 }
  p := { p with consensus.nTotalPOWBlock := p.consensus.warmUpPOWBlock + 40000 }
  p := { p with consensus.nStartMiningTime := 1593684000 }
  p := { p with consensus.stakeStopHeight := 16400 }
  p := { p with consensus.fPowAllowMinDifficultyBlocks := false }
  p := { p with consensus.fPowNoRetargeting := false }
  p := { p with consensus.nMinimumChainWork := uint256S "0x00" }
  p := { p with consensus.defaultAssumeValid := uint256S "0x00" }
  p := { p with pchMessageStart := Function.update p.pchMessageStart 0 0xfb }
  p := { p with pchMessageStart := Function.update p.pchMessageStart 1 0xf3 }
  p := { p with pchMessageStart := Function.update p.pchMessageStart 2 0xef }
  p := { p with pchMessageStart := Function.update p.pchMessageStart 3 0xb4 }
  p := { p with vAlertPubKey := (env.ParseHex
    "040797a85cafdf223783f0e31b7e3554b61f873efb0abaa6fa56632308ae2d7309a8afdf6c221a07f73fc288c7626f3cd97a6121241db0d60e0e375aaa87f4b9a2") }
  p := { p with nDefaultPort := 8368 }
  p := { p with genesis := env.CreateGenesisBlock 1593684000 1500976653 0x1e0fffff 1 0 }
  p := { p with consensus.hashGenesisBlock := env.GetHash p.genesis }
  assert (p.consensus.hashGenesisBlock ==
    uint256S "535120a6420fb5d6a859ccc08162608862fe8933bb526da3d062da9c126b5863")
  assert (p.genesis.hashMerkleRoot ==
    uint256S "2d20099ca5b8bd26f9d1f4ca06d6d8779df3baac617814cc82278039ca7a82e3")
  p := { p with vSeeds := p.vSeeds ++ ["3.128.150.218"] }
  p := { p with vSeeds := p.vSeeds ++ ["3.13.93.73"] }
  p := { p with vSeeds := p.vSeeds ++ ["3.128.85.98"] }
  p := { p with base58Prefixes := Function.update p.base58Prefixes PUBKEY_ADDRESS [0x42] }
  p := { p with base58Prefixes := Function.update p.base58Prefixes SCRIPT_ADDRESS [0x3c] }
  p := { p with base58Prefixes := Function.update p.base58Prefixes SECRET_KEY [0x6c] }
  p := { p with base58Prefixes :=
    (Function.update p.base58Prefixes EXT_PUBLIC_KEY [0x04, 0x88, 0xB2, 0x1E]) }
  p := { p with base58Prefixes :=
    (Function.update p.base58Prefixes EXT_SECRET_KEY [0x04, 0x88, 0xAD, 0xE4]) }
  p := { p with bech32_hrp := "ts" }
  p := { p with vFixedSeeds := env.pnSeed6_main }
  p := { p with nMiningRequiresPeers := 6 }
  p := { p with fDefaultConsistencyChecks := false }
  p := { p with fRequireStandard := true }
  p := { p with fMineBlocksOnDemand := false }
  p := { p with checkpointData := { mapCheckpoints := MapCheckpoints.ofList [
    (0, uint256S "843a90aa80dd935bd6a567337d53e391f9e7729d18ff7138c9a1cb6f7148a14e")] } }
  p := { p with chainTxData := { nTime := 0, nTxCount := 0, dTxRate := 0 } }
  return p

/-- The constructor `CTestNetParams::CTestNetParams`. -/
def CTestNetParams (env : Env) : Outcome CChainParams := do
  let mut p := env.baseInit
  p := { p with strNetworkID := "test" }
  p := { p with consensus.BIP16Height := 0 }
  p := { p with consensus.BIP34Height := 0 }
  p := { p with consensus.powLimit :=
    (uint256S "0000ffffffffffffffffffffffffffffffffffffffffffffffffffffffffffff") }
  p := { p with consensus.nTargetTimespan := 24 * 60 }
  p := { p with consensus.nStakeTargetSpacing := 2 * 60 }
  p := { p with consensus.nTargetSpacingWorkMax := 12 * p.consensus.nStakeTargetSpacing }
  p := { p with consensus.nPowTargetSpacing := p.consensus.nStakeTargetSpacing }
  p := { p with consensus.nStakeMinConfirmations := 240 }
  p := { p with consensus.nCoinbaseMaturity := 100 }
  p := { p with consensus.nDgwPastBlocks := 30 }
  p := { p with consensus.warmUpPOWBlock := 720 }
  p := { p with consensus.nTotalPOWBlock := p.consensus.warmUpPOWBlock + 14400 }
  p := { p with consensus.fPowAllowMinDifficultyBlocks := false }
  p := { p with consensus.fPowNoRetargeting := false }
  p := { p with consensus.nStartMiningTime := 1581441000 }
  p := { p with consensus.nMinimumChainWork := uint256S "0x00" }
  p := { p with consensus.defaultAssumeValid := uint256S "0x00" }
  p := { p with pchMessageStart := Function.update p.pchMessageStart 0 0xcb }
  p := { p with pchMessageStart := Function.update p.pchMessageStart 1 0xf2 }
  p := { p with pchMessageStart := Function.update p.pchMessageStart 2 0xc3 }
  p := { p with pchMessageStart := Function.update p.pchMessageStart 3 0xef }
  p := { p with nDefaultPort := 8366 }
  p := { p with vAlertPubKey := (env.ParseHex
    "04173a381c9a7c0bf2e8f5dd3c71d059b025b6fee42b92224af842bd40ba1c995d4e2e79d2fda539471ffb2cec48f45557c3f34d0269da3b6ae31eb7f48039b719") }
  p := { p with genesis := env.CreateGenesisBlock 1593058560 1000001936 0x1f00ffff 1 0 }
  p := { p with consensus.hashGenesisBlock := env.GetHash p.genesis }
  assert (p.consensus.hashGenesisBlock ==
    uint256S "bc284f3c9e9538048a36bfaa3f50052b55e28b7d1b1b797bfd16863f829661f9")
  assert (p.genesis.hashMerkleRoot ==
    uint256S "03aadc9d3bf9f6d0ab03858ee12d1f3bdc89bea2676fde4f44235538c3c1c7b2")
  p := { p with vFixedSeeds := [] }
  p := { p with vSeeds := [] }
  p := { p with vSeeds := p.vSeeds ++ ["3.128.150.218"] }
  p := { p with vSeeds := p.vSeeds ++ ["3.13.93.73"] }
  p := { p with vSeeds := p.vSeeds ++ ["3.128.85.98"] }
  p := { p with base58Prefixes := Function.update p.base58Prefixes PUBKEY_ADDRESS [0x80] }
  p := { p with base58Prefixes := Function.update p.base58Prefixes SCRIPT_ADDRESS [0x7a] }
  p := { p with base58Prefixes := Function.update p.base58Prefixes SECRET_KEY [0x2e] }
  p := { p with base58Prefixes :=
    (Function.update p.base58Prefixes EXT_PUBLIC_KEY [0x04, 0x35, 0x87, 0xCF]) }
  p := { p with base58Prefixes :=
    (Function.update p.base58Prefixes EXT_SECRET_KEY [0x04, 0x35, 0x83, 0x94]) }
  p := { p with bech32_hrp := "tst" }
  p := { p with vFixedSeeds := env.pnSeed6_test }
  p := { p with nMiningRequiresPeers := 6 }
  p := { p with fDefaultConsistencyChecks := false }
  p := { p with fRequireStandard := false }
  p := { p with fMineBlocksOnDemand := false }
  p := { p with checkpointData := { mapCheckpoints := MapCheckpoints.ofList [
    (0, uint256S "c4fa9f6a00492ad14854ae03bf02dfd2aaff667349d806092b13d829674e5a06")] } }
  p := { p with chainTxData := { nTime := 0, nTxCount := 0, dTxRate := 0 } }
  return p

/-- The constructor `CRegTestParams::CRegTestParams`. -/
def CRegTestParams (env : Env) : Outcome CChainParams := do
  let mut p := env.baseInit
  p := { p with strNetworkID := "regtest" }
  p := { p with consensus.BIP16Height := 0 }
  p := { p with consensus.BIP34Height := 0 }
  p := { p with consensus.BIP34Hash := 0 }
  p := { p with consensus.powLimit :=
    (uint256S "0000ffffffffffffffffffffffffffffffffffffffffffffffffffffffffffff") }
  p := { p with consensus.nTargetTimespan := 3 * 24 * 60 * 60 }
  p := { p with consensus.nStakeTargetSpacing := 2 * 60 }
  p := { p with consensus.nTargetSpacingWorkMax := 12 * p.consensus.nStakeTargetSpacing }
  p := { p with consensus.nPowTargetSpacing := p.consensus.nStakeTargetSpacing }
  p := { p with consensus.nStakeMinConfirmations := 2 }
  p := { p with consensus.nCoinbaseMaturity := 2 }
  p := { p with consensus.nDgwPastBlocks := 3 }
  p := { p with consensus.warmUpPOWBlock := 720 }
  p := { p with consensus.nTotalPOWBlock := p.consensus.warmUpPOWBlock + 40000 }
  p := { p with consensus.fPowAllowMinDifficultyBlocks := true }
  p := { p with consensus.fPowNoRetargeting := true }
  p := { p with consensus.nStartMiningTime := 1581501960 }
  p := { p with consensus.nMinimumChainWork := uint256S "0x00" }
  p := { p with consensus.defaultAssumeValid := uint256S "0x00" }
  p := { p with pchMessageStart := Function.update p.pchMessageStart 0 0xcb }
  p := { p with pchMessageStart := Function.update p.pchMessageStart 1 0xf2 }
  p := { p with pchMessageStart := Function.update p.pchMessageStart 2 0xc0 }
  p := { p with pchMessageStart := Function.update p.pchMessageStart 3 0xef }
  p := { p with nDefaultPort := 8233 }
  p := { p with vAlertPubKey := (env.ParseHex
    "04173a381c9a7c0bf2e8f5dd3c71d059b025b6fee42b92224af842bd40ba1c995d4e2e79d2fda539471ffb2cec48f45557c3f34d0269da3b6ae31eb7f48039b719") }
  p := { p with genesis := env.CreateGenesisBlock 1565753832 300011609 0x1f00ffff 1 0 }
  p := { p with consensus.hashGenesisBlock := env.GetHash p.genesis }
  assert (p.consensus.hashGenesisBlock ==
    uint256S "65f8e03c5b49085a78e5422d637aaf02e7d8fc7ce93be8f563e4032854731e41")
  assert (p.genesis.hashMerkleRoot ==
    uint256S "7a12d0f54abd64da88bbe04907daa662a18ee900e886e1e98f78b934f9ca18e7")
  p := { p with vFixedSeeds := [] }
  p := { p with vSeeds := [] }
  p := { p with checkpointData := { mapCheckpoints := MapCheckpoints.ofList [
    (0, uint256S "65f8e03c5b49085a78e5422d637aaf02e7d8fc7ce93be8f563e4032854731e41")] } }
  p := { p with chainTxData := { nTime := 0, nTxCount := 0, dTxRate := 0 } }
  p := { p with base58Prefixes := Function.update p.base58Prefixes PUBKEY_ADDRESS [0x80] }
  p := { p with base58Prefixes := Function.update p.base58Prefixes SCRIPT_ADDRESS [0x7a] }
  p := { p with base58Prefixes := Function.update p.base58Prefixes SECRET_KEY [0x2e] }
  p := { p with base58Prefixes :=
    (Function.update p.base58Prefixes EXT_PUBLIC_KEY [0x04, 0x35, 0x87, 0xCF]) }
  p := { p with base58Prefixes :=
    (Function.update p.base58Prefixes EXT_SECRET_KEY [0x04, 0x35, 0x83, 0x94]) }
  p := { p with bech32_hrp := "tsrt" }
  p := { p with nMiningRequiresPeers := 0 }
  p := { p with fDefaultConsistencyChecks := false }
  p := { p with fRequireStandard := false }
  p := { p with fMineBlocksOnDemand := false }
  return p

/-! ## The process-wide slot and the registry operations -/

/-- The state this translation unit owns: the file-local
`globalChainParams`, a `std::unique_ptr` that is either null (`none`) or
owns a parameter set. -/
structure GlobalState where
  globalChainParams : Option CChainParams
  deriving DecidableEq

/-- The state at process start: the static `unique_ptr` is null. -/
def GlobalState.initial : GlobalState := { globalChainParams := none }

/-- Modelled from the spec: the constant `CBaseChainParams::MAIN` is defined
in `chainparamsbase.cpp`, not in `src/`; the spec gives the identifier as the
literal string `main`. -/
def CBaseChainParams.MAIN : String := "main"

/-- Modelled from the spec: the constant `CBaseChainParams::TESTNET` is
defined in `chainparamsbase.cpp`, not in `src/`; the spec gives the
identifier as the literal string `test`. -/
def CBaseChainParams.TESTNET : String := "test"

/-- Modelled from the spec: the constant `CBaseChainParams::REGTEST` is
defined in `chainparamsbase.cpp`, not in `src/`; the spec gives the
identifier as the literal string `regtest`. -/
def CBaseChainParams.REGTEST : String := "regtest"

/-- The accessor `Params()`: asserts that the slot is non-null and returns
the set it owns. The slot is only read. -/
def Params (σ : GlobalState) : Outcome CChainParams := do
  assert σ.globalChainParams.isSome
  match σ.globalChainParams with
  | some p => return p
  | none => Outcome.abort

/-- The message of the exception thrown for an unrecognised identifier:
`strprintf("%s: Unknown chain %s.", __func__, chain)`. -/
def unknownChainMessage (chain : String) : String :=
  "CreateChainParams" ++ ": Unknown chain " ++ chain ++ "."

/-- The factory `CreateChainParams(chain)`. The state is threaded through to
record what the body does to the slot: nothing. -/
def CreateChainParams (env : Env) (chain : String) (σ : GlobalState) :
    Outcome CChainParams × GlobalState :=
  if chain = CBaseChainParams.MAIN then (CMainParams env, σ)
  else if chain = CBaseChainParams.TESTNET then (CTestNetParams env, σ)
  else if chain = CBaseChainParams.REGTEST then (CRegTestParams env, σ)
  else (Outcome.throw (unknownChainMessage chain), σ)

/-- The operation `SelectParams(network)`: runs `SelectBaseParams`, then
builds the set; the assignment to `globalChainParams` happens only when the
factory has returned. -/
def SelectParams (env : Env) (network : String) (σ : GlobalState) :
    Outcome Unit × GlobalState :=
  match env.SelectBaseParams network with
  | Outcome.ok () =>
    match CreateChainParams env network σ with
    | (Outcome.ok p, σ1) => (Outcome.ok (), { σ1 with globalChainParams := some p })
    | (Outcome.throw e, σ1) => (Outcome.throw e, σ1)
    | (Outcome.abort, σ1) => (Outcome.abort, σ1)
  | Outcome.throw e => (Outcome.throw e, σ)
  | Outcome.abort => (Outcome.abort, σ)

/-! ## Concrete environments used to exercise the theorems -/

/-- A lookup table standing in for the Merkle-root computation: it answers
the published root for each of the three genesis nonces. -/
def publishedMerkleRoot (nNonce : Nat) : uint256 :=
  if nNonce = 1500976653 then
    0x2d20099ca5b8bd26f9d1f4ca06d6d8779df3baac617814cc82278039ca7a82e3
  else if nNonce = 1000001936 then
    0x03aadc9d3bf9f6d0ab03858ee12d1f3bdc89bea2676fde4f44235538c3c1c7b2
  else if nNonce = 300011609 then
    0x7a12d0f54abd64da88bbe04907daa662a18ee900e886e1e98f78b934f9ca18e7
  else 0

/-- A lookup table standing in for the header digest: it answers the
published genesis hash for each of the three genesis nonces. -/
def publishedHash (b : CBlock) : uint256 :=
  if b.nNonce = 1500976653 then
    0x535120a6420fb5d6a859ccc08162608862fe8933bb526da3d062da9c126b5863
  else if b.nNonce = 1000001936 then
    0xbc284f3c9e9538048a36bfaa3f50052b55e28b7d1b1b797bfd16863f829661f9
  else if b.nNonce = 300011609 then
    0x65f8e03c5b49085a78e5422d637aaf02e7d8fc7ce93be8f563e4032854731e41
  else 0

/-- A zero-filled parameter object. -/
def zeroParams : CChainParams where
  consensus := {
    hashGenesisBlock := 0, BIP16Height := 0, BIP34Height := 0, BIP34Hash := 0, powLimit := 0,
    nTargetTimespan := 0, nStakeTargetSpacing := 0, nTargetSpacingWorkMax := 0,
    nPowTargetSpacing := 0, nStakeMinConfirmations := 0, nCoinbaseMaturity := 0,
    nDgwPastBlocks := 0, warmUpPOWBlock := 0, nTotalPOWBlock := 0, nStartMiningTime := 0,
    stakeStopHeight := 0, fPowAllowMinDifficultyBlocks := false, fPowNoRetargeting := false,
    nMinimumChainWork := 0, defaultAssumeValid := 0 }
  pchMessageStart := fun _ => 0
  vAlertPubKey := []
  nDefaultPort := 0
  genesis := { nVersion := 0, hashPrevBlock := 0, hashMerkleRoot := 0, nTime := 0, nBits := 0,
               nNonce := 0 }
  vSeeds := []
  vFixedSeeds := []
  base58Prefixes := fun _ => []
  bech32_hrp := ""
  strNetworkID := ""
  nMiningRequiresPeers := 0
  fDefaultConsistencyChecks := false
  fRequireStandard := false
  fMineBlocksOnDemand := false
  checkpointData := { mapCheckpoints := [] }
  chainTxData := { nTime := 0, nTxCount := 0, dTxRate := 0 }

/-- An environment in which the hash primitives give the published values,
so that all three constructors pass their assertions. -/
def publishedEnv : Env where
  CreateGenesisBlock := fun nTime nNonce nBits nVersion _ =>
    { nVersion := nVersion, hashPrevBlock := 0, hashMerkleRoot := publishedMerkleRoot nNonce,
      nTime := nTime, nBits := nBits, nNonce := nNonce }
  GetHash := publishedHash
  ParseHex := fun _ => []
  pnSeed6_main := []
  pnSeed6_test := []
  baseInit := zeroParams
  SelectBaseParams := fun _ => Outcome.ok ()

/-- An environment whose header digest is constantly zero, so that every
constructor fails its first assertion. -/
def brokenEnv : Env := { publishedEnv with GetHash := fun _ => 0 }

/-- The value carried by a normal return, `d` for a failed call. -/
def Outcome.getD {α : Type} (o : Outcome α) (d : α) : α :=
  match o with
  | Outcome.ok a => a
  | _ => d

/-- The main-network set built under `publishedEnv`. -/
def publishedMain : CChainParams := (CMainParams publishedEnv).getD zeroParams

/-- The test-network set built under `publishedEnv`. -/
def publishedTest : CChainParams := (CTestNetParams publishedEnv).getD zeroParams

/-- The regression-test set built under `publishedEnv`. -/
def publishedRegTest : CChainParams := (CRegTestParams publishedEnv).getD zeroParams

/-! ## Predicates used in the statements -/

/-- Both genesis assertions of a constructor hold: the digest of the block
that `CreateGenesisBlock` builds from the given scalars (version `1`, reward
`0`) is `hash`, and the Merkle root recorded in that block is `root`. -/
def GenesisMatches (env : Env) (nTime nNonce nBits : Nat) (hash root : uint256) : Prop :=
  env.GetHash (env.CreateGenesisBlock nTime nNonce nBits 1 0) = hash ∧
    (env.CreateGenesisBlock nTime nNonce nBits 1 0).hashMerkleRoot = root

instance (env : Env) (nTime nNonce nBits : Nat) (hash root : uint256) :
    Decidable (GenesisMatches env nTime nNonce nBits hash root) := by
  unfold GenesisMatches; infer_instance

/-- A constructor `ctor` is genesis-checked against `hash` and `root`: under
any environment it returns a set exactly when both assertions hold, it aborts
otherwise, and a returned set records `hash` as its genesis hash and holds a
genesis block whose Merkle root is `root`. -/
def GenesisChecked (ctor : Env → Outcome CChainParams) (nTime nNonce nBits : Nat)
    (hash root : uint256) : Prop :=
  ∀ env : Env,
    ((∃ p, ctor env = Outcome.ok p) ↔ GenesisMatches env nTime nNonce nBits hash root) ∧
    (¬ GenesisMatches env nTime nNonce nBits hash root → ctor env = Outcome.abort) ∧
    (∀ p, ctor env = Outcome.ok p →
      p.consensus.hashGenesisBlock = hash ∧ p.genesis.hashMerkleRoot = root)

/-- The checkpoint table is height-ascending and height-unique: heights
strictly increase along the table. -/
def MapCheckpoints.Ascending (m : MapCheckpoints) : Prop :=
  List.Pairwise (fun a b => a.1 < b.1) m

/-- Modelled from the spec: `arith_uint256::SetCompact` (declared in
`arith_uint256.h`) is not in `src/`. The spec calls the difficulty bits a
"compact 32-bit encoding of a proof-of-work target threshold"; the target is
the mantissa times `256 ^ (exponent - 3)`, with the exponent the top byte and
the mantissa the low 23 bits. For an exponent of 3 or less the mantissa is
shifted right instead, and the result is kept to 256 bits. -/
def SetCompact (nCompact : Nat) : uint256 :=
  let nSize := (nCompact % 2 ^ 32) / 2 ^ 24
  let nWord := nCompact % 2 ^ 23
  if nSize ≤ 3 then nWord / 256 ^ (3 - nSize)
  else (nWord * 256 ^ (nSize - 3)) % 2 ^ 256

/-- A caller that issues `SelectParams` for each identifier in turn and
catches the exception of a call that throws; an abort ends the process, and
with it the run. The result is the state the run ends in. -/
def selectAll (env : Env) : List String → GlobalState → GlobalState
  | [], σ => σ
  | id :: ids, σ =>
    if (SelectParams env id σ).1 = Outcome.abort then (SelectParams env id σ).2
    else selectAll env ids (SelectParams env id σ).2

theorem assert_bind {β : Type} (c : Bool) (f : Unit → Outcome β) :
    (assert c >>= f) = if c then f () else Outcome.abort := by
  cases c <;> rfl

theorem pure_eq_ok {α : Type} (a : α) : (pure a : Outcome α) = Outcome.ok a := rfl

/-! ### The literals, as numbers -/

theorem uint256S_mainGenesisHash :
    uint256S "535120a6420fb5d6a859ccc08162608862fe8933bb526da3d062da9c126b5863"
      = 0x535120a6420fb5d6a859ccc08162608862fe8933bb526da3d062da9c126b5863 := by decide

theorem uint256S_mainMerkleRoot :
    uint256S "2d20099ca5b8bd26f9d1f4ca06d6d8779df3baac617814cc82278039ca7a82e3"
      = 0x2d20099ca5b8bd26f9d1f4ca06d6d8779df3baac617814cc82278039ca7a82e3 := by decide

theorem uint256S_mainCheckpoint :
    uint256S "843a90aa80dd935bd6a567337d53e391f9e7729d18ff7138c9a1cb6f7148a14e"
      = 0x843a90aa80dd935bd6a567337d53e391f9e7729d18ff7138c9a1cb6f7148a14e := by decide

theorem uint256S_testGenesisHash :
    uint256S "bc284f3c9e9538048a36bfaa3f50052b55e28b7d1b1b797bfd16863f829661f9"
      = 0xbc284f3c9e9538048a36bfaa3f50052b55e28b7d1b1b797bfd16863f829661f9 := by decide

theorem uint256S_testMerkleRoot :
    uint256S "03aadc9d3bf9f6d0ab03858ee12d1f3bdc89bea2676fde4f44235538c3c1c7b2"
      = 0x03aadc9d3bf9f6d0ab03858ee12d1f3bdc89bea2676fde4f44235538c3c1c7b2 := by decide

theorem uint256S_testCheckpoint :
    uint256S "c4fa9f6a00492ad14854ae03bf02dfd2aaff667349d806092b13d829674e5a06"
      = 0xc4fa9f6a00492ad14854ae03bf02dfd2aaff667349d806092b13d829674e5a06 := by decide

theorem uint256S_regtestGenesisHash :
    uint256S "65f8e03c5b49085a78e5422d637aaf02e7d8fc7ce93be8f563e4032854731e41"
      = 0x65f8e03c5b49085a78e5422d637aaf02e7d8fc7ce93be8f563e4032854731e41 := by decide

theorem uint256S_regtestMerkleRoot :
    uint256S "7a12d0f54abd64da88bbe04907daa662a18ee900e886e1e98f78b934f9ca18e7"
      = 0x7a12d0f54abd64da88bbe04907daa662a18ee900e886e1e98f78b934f9ca18e7 := by decide

theorem uint256S_mainPowLimit :
    uint256S "00000fffffffffffffffffffffffffffffffffffffffffffffffffffffffffff"
      = 2 ^ 236 - 1 := by decide

theorem uint256S_testPowLimit :
    uint256S "0000ffffffffffffffffffffffffffffffffffffffffffffffffffffffffffff"
      = 2 ^ 240 - 1 := by decide

/-! ### What each constructor leaves in the object it returns -/

/-- The values found in an object returned by `CMainParams`. -/
structure MainBuilt (env : Env) (p : CChainParams) : Prop where
  genesisHash : env.GetHash (env.CreateGenesisBlock 1593684000 1500976653 0x1e0fffff 1 0)
    = uint256S "535120a6420fb5d6a859ccc08162608862fe8933bb526da3d062da9c126b5863"
  merkleRoot : (env.CreateGenesisBlock 1593684000 1500976653 0x1e0fffff 1 0).hashMerkleRoot
    = uint256S "2d20099ca5b8bd26f9d1f4ca06d6d8779df3baac617814cc82278039ca7a82e3"
  genesis : p.genesis = env.CreateGenesisBlock 1593684000 1500976653 0x1e0fffff 1 0
  hashGenesisBlock : p.consensus.hashGenesisBlock
    = uint256S "535120a6420fb5d6a859ccc08162608862fe8933bb526da3d062da9c126b5863"
  strNetworkID : p.strNetworkID = "main"
  powLimit : p.consensus.powLimit
    = uint256S "00000fffffffffffffffffffffffffffffffffffffffffffffffffffffffffff"
  nStakeTargetSpacing : p.consensus.nStakeTargetSpacing = 120
  warmUpPOWBlock : p.consensus.warmUpPOWBlock = 1440
  nTotalPOWBlock : p.consensus.nTotalPOWBlock = 41440
  fPowAllowMinDifficultyBlocks : p.consensus.fPowAllowMinDifficultyBlocks = false
  fPowNoRetargeting : p.consensus.fPowNoRetargeting = false
  magic0 : p.pchMessageStart 0 = 0xfb
  magic1 : p.pchMessageStart 1 = 0xf3
  magic2 : p.pchMessageStart 2 = 0xef
  magic3 : p.pchMessageStart 3 = 0xb4
  nDefaultPort : p.nDefaultPort = 8368
  vSeeds : p.vSeeds = env.baseInit.vSeeds ++ ["3.128.150.218", "3.13.93.73", "3.128.85.98"]
  pubkeyPrefix : p.base58Prefixes PUBKEY_ADDRESS = [0x42]
  scriptPrefix : p.base58Prefixes SCRIPT_ADDRESS = [0x3c]
  secretPrefix : p.base58Prefixes SECRET_KEY = [0x6c]
  extPublicPrefix : p.base58Prefixes EXT_PUBLIC_KEY = [0x04, 0x88, 0xB2, 0x1E]
  extSecretPrefix : p.base58Prefixes EXT_SECRET_KEY = [0x04, 0x88, 0xAD, 0xE4]
  bech32_hrp : p.bech32_hrp = "ts"
  vFixedSeeds : p.vFixedSeeds = env.pnSeed6_main
  nMiningRequiresPeers : p.nMiningRequiresPeers = 6
  fRequireStandard : p.fRequireStandard = true
  mapCheckpoints : p.checkpointData.mapCheckpoints
    = [(0, uint256S "843a90aa80dd935bd6a567337d53e391f9e7729d18ff7138c9a1cb6f7148a14e")]

/-- The values found in an object returned by `CTestNetParams`. -/
structure TestNetBuilt (env : Env) (p : CChainParams) : Prop where
  genesisHash : env.GetHash (env.CreateGenesisBlock 1593058560 1000001936 0x1f00ffff 1 0)
    = uint256S "bc284f3c9e9538048a36bfaa3f50052b55e28b7d1b1b797bfd16863f829661f9"
  merkleRoot : (env.CreateGenesisBlock 1593058560 1000001936 0x1f00ffff 1 0).hashMerkleRoot
    = uint256S "03aadc9d3bf9f6d0ab03858ee12d1f3bdc89bea2676fde4f44235538c3c1c7b2"
  genesis : p.genesis = env.CreateGenesisBlock 1593058560 1000001936 0x1f00ffff 1 0
  hashGenesisBlock : p.consensus.hashGenesisBlock
    = uint256S "bc284f3c9e9538048a36bfaa3f50052b55e28b7d1b1b797bfd16863f829661f9"
  strNetworkID : p.strNetworkID = "test"
  powLimit : p.consensus.powLimit
    = uint256S "0000ffffffffffffffffffffffffffffffffffffffffffffffffffffffffffff"
  nStakeTargetSpacing : p.consensus.nStakeTargetSpacing = 120
  warmUpPOWBlock : p.consensus.warmUpPOWBlock = 720
  nTotalPOWBlock : p.consensus.nTotalPOWBlock = 15120
  fPowAllowMinDifficultyBlocks : p.consensus.fPowAllowMinDifficultyBlocks = false
  fPowNoRetargeting : p.consensus.fPowNoRetargeting = false
  magic0 : p.pchMessageStart 0 = 0xcb
  magic1 : p.pchMessageStart 1 = 0xf2
  magic2 : p.pchMessageStart 2 = 0xc3
  magic3 : p.pchMessageStart 3 = 0xef
  nDefaultPort : p.nDefaultPort = 8366
  vSeeds : p.vSeeds = ["3.128.150.218", "3.13.93.73", "3.128.85.98"]
  pubkeyPrefix : p.base58Prefixes PUBKEY_ADDRESS = [0x80]
  scriptPrefix : p.base58Prefixes SCRIPT_ADDRESS = [0x7a]
  secretPrefix : p.base58Prefixes SECRET_KEY = [0x2e]
  extPublicPrefix : p.base58Prefixes EXT_PUBLIC_KEY = [0x04, 0x35, 0x87, 0xCF]
  extSecretPrefix : p.base58Prefixes EXT_SECRET_KEY = [0x04, 0x35, 0x83, 0x94]
  bech32_hrp : p.bech32_hrp = "tst"
  vFixedSeeds : p.vFixedSeeds = env.pnSeed6_test
  nMiningRequiresPeers : p.nMiningRequiresPeers = 6
  fRequireStandard : p.fRequireStandard = false
  mapCheckpoints : p.checkpointData.mapCheckpoints
    = [(0, uint256S "c4fa9f6a00492ad14854ae03bf02dfd2aaff667349d806092b13d829674e5a06")]

/-- The values found in an object returned by `CRegTestParams`. -/
structure RegTestBuilt (env : Env) (p : CChainParams) : Prop where
  genesisHash : env.GetHash (env.CreateGenesisBlock 1565753832 300011609 0x1f00ffff 1 0)
    = uint256S "65f8e03c5b49085a78e5422d637aaf02e7d8fc7ce93be8f563e4032854731e41"
  merkleRoot : (env.CreateGenesisBlock 1565753832 300011609 0x1f00ffff 1 0).hashMerkleRoot
    = uint256S "7a12d0f54abd64da88bbe04907daa662a18ee900e886e1e98f78b934f9ca18e7"
  genesis : p.genesis = env.CreateGenesisBlock 1565753832 300011609 0x1f00ffff 1 0
  hashGenesisBlock : p.consensus.hashGenesisBlock
    = uint256S "65f8e03c5b49085a78e5422d637aaf02e7d8fc7ce93be8f563e4032854731e41"
  strNetworkID : p.strNetworkID = "regtest"
  powLimit : p.consensus.powLimit
    = uint256S "0000ffffffffffffffffffffffffffffffffffffffffffffffffffffffffffff"
  nStakeTargetSpacing : p.consensus.nStakeTargetSpacing = 120
  warmUpPOWBlock : p.consensus.warmUpPOWBlock = 720
  nTotalPOWBlock : p.consensus.nTotalPOWBlock = 40720
  fPowAllowMinDifficultyBlocks : p.consensus.fPowAllowMinDifficultyBlocks = true
  fPowNoRetargeting : p.consensus.fPowNoRetargeting = true
  magic0 : p.pchMessageStart 0 = 0xcb
  magic1 : p.pchMessageStart 1 = 0xf2
  magic2 : p.pchMessageStart 2 = 0xc0
  magic3 : p.pchMessageStart 3 = 0xef
  nDefaultPort : p.nDefaultPort = 8233
  vSeeds : p.vSeeds = []
  pubkeyPrefix : p.base58Prefixes PUBKEY_ADDRESS = [0x80]
  scriptPrefix : p.base58Prefixes SCRIPT_ADDRESS = [0x7a]
  secretPrefix : p.base58Prefixes SECRET_KEY = [0x2e]
  extPublicPrefix : p.base58Prefixes EXT_PUBLIC_KEY = [0x04, 0x35, 0x87, 0xCF]
  extSecretPrefix : p.base58Prefixes EXT_SECRET_KEY = [0x04, 0x35, 0x83, 0x94]
  bech32_hrp : p.bech32_hrp = "tsrt"
  vFixedSeeds : p.vFixedSeeds = []
  nMiningRequiresPeers : p.nMiningRequiresPeers = 0
  fRequireStandard : p.fRequireStandard = false
  mapCheckpoints : p.checkpointData.mapCheckpoints
    = [(0, uint256S "65f8e03c5b49085a78e5422d637aaf02e7d8fc7ce93be8f563e4032854731e41")]

theorem CMainParams_built {env : Env} {p : CChainParams}
    (h : CMainParams env = Outcome.ok p) : MainBuilt env p := by
  unfold CMainParams at h
  simp only [assert_bind, pure_eq_ok, beq_iff_eq] at h
  split at h
  · split at h
    · cases h
      constructor <;> first | assumption | rfl | simp
    · cases h
  · cases h

theorem CTestNetParams_built {env : Env} {p : CChainParams}
    (h : CTestNetParams env = Outcome.ok p) : TestNetBuilt env p := by
  unfold CTestNetParams at h
  simp only [assert_bind, pure_eq_ok, beq_iff_eq] at h
  split at h
  · split at h
    · cases h
      constructor <;> first | assumption | rfl
    · cases h
  · cases h

theorem CRegTestParams_built {env : Env} {p : CChainParams}
    (h : CRegTestParams env = Outcome.ok p) : RegTestBuilt env p := by
  unfold CRegTestParams at h
  simp only [assert_bind, pure_eq_ok, beq_iff_eq] at h
  split at h
  · split at h
    · cases h
      constructor <;> first | assumption | rfl
    · cases h
  · cases h

/-! ### Outcome of each constructor -/

theorem CMainParams_outcome (env : Env) :
    (GenesisMatches env 1593684000 1500976653 0x1e0fffff
        (uint256S "535120a6420fb5d6a859ccc08162608862fe8933bb526da3d062da9c126b5863")
        (uint256S "2d20099ca5b8bd26f9d1f4ca06d6d8779df3baac617814cc82278039ca7a82e3") ∧
      ∃ p, CMainParams env = Outcome.ok p) ∨
    (¬ GenesisMatches env 1593684000 1500976653 0x1e0fffff
        (uint256S "535120a6420fb5d6a859ccc08162608862fe8933bb526da3d062da9c126b5863")
        (uint256S "2d20099ca5b8bd26f9d1f4ca06d6d8779df3baac617814cc82278039ca7a82e3") ∧
      CMainParams env = Outcome.abort) := by
  unfold CMainParams GenesisMatches
  simp only [assert_bind, pure_eq_ok, beq_iff_eq]
  split
  · split
    · exact Or.inl ⟨⟨by assumption, by assumption⟩, _, rfl⟩
    · exact Or.inr ⟨fun hm => absurd hm.2 (by assumption), rfl⟩
  · exact Or.inr ⟨fun hm => absurd hm.1 (by assumption), rfl⟩

theorem CTestNetParams_outcome (env : Env) :
    (GenesisMatches env 1593058560 1000001936 0x1f00ffff
        (uint256S "bc284f3c9e9538048a36bfaa3f50052b55e28b7d1b1b797bfd16863f829661f9")
        (uint256S "03aadc9d3bf9f6d0ab03858ee12d1f3bdc89bea2676fde4f44235538c3c1c7b2") ∧
      ∃ p, CTestNetParams env = Outcome.ok p) ∨
    (¬ GenesisMatches env 1593058560 1000001936 0x1f00ffff
        (uint256S "bc284f3c9e9538048a36bfaa3f50052b55e28b7d1b1b797bfd16863f829661f9")
        (uint256S "03aadc9d3bf9f6d0ab03858ee12d1f3bdc89bea2676fde4f44235538c3c1c7b2") ∧
      CTestNetParams env = Outcome.abort) := by
  unfold CTestNetParams GenesisMatches
  simp only [assert_bind, pure_eq_ok, beq_iff_eq]
  split
  · split
    · exact Or.inl ⟨⟨by assumption, by assumption⟩, _, rfl⟩
    · exact Or.inr ⟨fun hm => absurd hm.2 (by assumption), rfl⟩
  · exact Or.inr ⟨fun hm => absurd hm.1 (by assumption), rfl⟩

theorem CRegTestParams_outcome (env : Env) :
    (GenesisMatches env 1565753832 300011609 0x1f00ffff
        (uint256S "65f8e03c5b49085a78e5422d637aaf02e7d8fc7ce93be8f563e4032854731e41")
        (uint256S "7a12d0f54abd64da88bbe04907daa662a18ee900e886e1e98f78b934f9ca18e7") ∧
      ∃ p, CRegTestParams env = Outcome.ok p) ∨
    (¬ GenesisMatches env 1565753832 300011609 0x1f00ffff
        (uint256S "65f8e03c5b49085a78e5422d637aaf02e7d8fc7ce93be8f563e4032854731e41")
        (uint256S "7a12d0f54abd64da88bbe04907daa662a18ee900e886e1e98f78b934f9ca18e7") ∧
      CRegTestParams env = Outcome.abort) := by
  unfold CRegTestParams GenesisMatches
  simp only [assert_bind, pure_eq_ok, beq_iff_eq]
  split
  · split
    · exact Or.inl ⟨⟨by assumption, by assumption⟩, _, rfl⟩
    · exact Or.inr ⟨fun hm => absurd hm.2 (by assumption), rfl⟩
  · exact Or.inr ⟨fun hm => absurd hm.1 (by assumption), rfl⟩

/-- A constructor whose outcome is decided by its two assertions, and whose
returned object carries the asserted values, is genesis-checked. -/
theorem genesisChecked_of_outcome {ctor : Env → Outcome CChainParams}
    {nTime nNonce nBits : Nat} {hash root : uint256}
    (hout : ∀ env, (GenesisMatches env nTime nNonce nBits hash root ∧
        ∃ p, ctor env = Outcome.ok p) ∨
      (¬ GenesisMatches env nTime nNonce nBits hash root ∧ ctor env = Outcome.abort))
    (hval : ∀ env p, ctor env = Outcome.ok p →
      p.consensus.hashGenesisBlock = hash ∧
        p.genesis = env.CreateGenesisBlock nTime nNonce nBits 1 0) :
    GenesisChecked ctor nTime nNonce nBits hash root := by
  intro env
  refine ⟨⟨?_, ?_⟩, ?_, ?_⟩
  · rintro ⟨p, hp⟩
    rcases hout env with ⟨hm, _⟩ | ⟨_, ha⟩
    · exact hm
    · rw [ha] at hp; cases hp
  · intro hm
    rcases hout env with ⟨_, hp⟩ | ⟨hn, _⟩
    · exact hp
    · exact absurd hm hn
  · intro hn
    rcases hout env with ⟨hm, _⟩ | ⟨_, ha⟩
    · exact absurd hm hn
    · exact ha
  · intro p hp
    rcases hout env with ⟨hm, _⟩ | ⟨_, ha⟩
    · obtain ⟨h1, h2⟩ := hval env p hp
      exact ⟨h1, by rw [h2]; exact hm.2⟩
    · rw [ha] at hp; cases hp

theorem CMainParams_ne_throw (env : Env) (e : String) : CMainParams env ≠ Outcome.throw e := by
  rcases CMainParams_outcome env with ⟨_, p, hp⟩ | ⟨_, ha⟩
  · rw [hp]; intro h; cases h
  · rw [ha]; intro h; cases h

theorem CTestNetParams_ne_throw (env : Env) (e : String) :
    CTestNetParams env ≠ Outcome.throw e := by
  rcases CTestNetParams_outcome env with ⟨_, p, hp⟩ | ⟨_, ha⟩
  · rw [hp]; intro h; cases h
  · rw [ha]; intro h; cases h

theorem CRegTestParams_ne_throw (env : Env) (e : String) :
    CRegTestParams env ≠ Outcome.throw e := by
  rcases CRegTestParams_outcome env with ⟨_, p, hp⟩ | ⟨_, ha⟩
  · rw [hp]; intro h; cases h
  · rw [ha]; intro h; cases h

/-! ### The constructors under the concrete environments -/

theorem CMainParams_publishedEnv : CMainParams publishedEnv = Outcome.ok publishedMain := by
  decide

theorem CTestNetParams_publishedEnv :
    CTestNetParams publishedEnv = Outcome.ok publishedTest := by
  decide

theorem CRegTestParams_publishedEnv :
    CRegTestParams publishedEnv = Outcome.ok publishedRegTest := by
  decide

theorem CMainParams_brokenEnv : CMainParams brokenEnv = Outcome.abort := by decide

/-! ### The factory and the accessor -/

theorem CreateChainParams_snd (env : Env) (chain : String) (σ : GlobalState) :
    (CreateChainParams env chain σ).2 = σ := by
  unfold CreateChainParams
  split_ifs <;> rfl

theorem CreateChainParams_main (env : Env) (σ : GlobalState) :
    (CreateChainParams env "main" σ).1 = CMainParams env := by
  simp [CreateChainParams, CBaseChainParams.MAIN]

theorem CreateChainParams_test (env : Env) (σ : GlobalState) :
    (CreateChainParams env "test" σ).1 = CTestNetParams env := by
  simp [CreateChainParams, CBaseChainParams.MAIN, CBaseChainParams.TESTNET]

theorem CreateChainParams_regtest (env : Env) (σ : GlobalState) :
    (CreateChainParams env "regtest" σ).1 = CRegTestParams env := by
  simp [CreateChainParams, CBaseChainParams.MAIN, CBaseChainParams.TESTNET,
    CBaseChainParams.REGTEST]

theorem CreateChainParams_other (env : Env) (chain : String) (σ : GlobalState)
    (h1 : chain ≠ "main") (h2 : chain ≠ "test") (h3 : chain ≠ "regtest") :
    (CreateChainParams env chain σ).1 = Outcome.throw (unknownChainMessage chain) := by
  simp [CreateChainParams, CBaseChainParams.MAIN, CBaseChainParams.TESTNET,
    CBaseChainParams.REGTEST, h1, h2, h3]

theorem Params_none (σ : GlobalState) (h : σ.globalChainParams = none) :
    Params σ = Outcome.abort := by
  unfold Params
  rw [h]; rfl

theorem Params_some (σ : GlobalState) (p : CChainParams) (h : σ.globalChainParams = some p) :
    Params σ = Outcome.ok p := by
  unfold Params
  rw [h]; rfl

theorem Params_ok_iff (σ : GlobalState) (p : CChainParams) :
    Params σ = Outcome.ok p ↔ σ.globalChainParams = some p := by
  constructor
  · intro h
    cases hg : σ.globalChainParams with
    | none => rw [Params_none σ hg] at h; cases h
    | some q =>
      rw [Params_some σ q hg] at h
      cases h; rfl
  · exact Params_some σ p

/-- What `SelectParams` does, by the outcome of its two calls. -/
theorem SelectParams_eq (env : Env) (network : String) (σ : GlobalState) :
    SelectParams env network σ =
      match env.SelectBaseParams network with
      | Outcome.ok () =>
        match (CreateChainParams env network σ).1 with
        | Outcome.ok p => (Outcome.ok (), { globalChainParams := some p })
        | Outcome.throw e => (Outcome.throw e, σ)
        | Outcome.abort => (Outcome.abort, σ)
      | Outcome.throw e => (Outcome.throw e, σ)
      | Outcome.abort => (Outcome.abort, σ) := by
  have hs := CreateChainParams_snd env network σ
  unfold SelectParams
  cases hb : env.SelectBaseParams network with
  | ok u =>
    cases u
    rcases hc : CreateChainParams env network σ with ⟨o, σ1⟩
    rw [hc] at hs
    cases o <;> simp_all
  | throw e => rfl
  | abort => rfl

/-- A `SelectParams` call that does not return leaves the slot as it was. -/
theorem SelectParams_state_of_not_ok (env : Env) (network : String) (σ : GlobalState)
    (h : (SelectParams env network σ).1 ≠ Outcome.ok ()) :
    (SelectParams env network σ).2 = σ := by
  rw [SelectParams_eq] at h ⊢
  cases hb : env.SelectBaseParams network with
  | ok u =>
    cases u
    rw [hb] at h
    cases hc : (CreateChainParams env network σ).1 with
    | ok p => rw [hc] at h; exact absurd rfl h
    | throw e => rfl
    | abort => rfl
  | throw e => rfl
  | abort => rfl

/-- A `SelectParams` call that returns has installed the set the factory
built. -/
theorem SelectParams_state_of_ok (env : Env) (network : String) (σ : GlobalState)
    (h : (SelectParams env network σ).1 = Outcome.ok ()) :
    ∃ p, (CreateChainParams env network σ).1 = Outcome.ok p ∧
      (SelectParams env network σ).2 = { globalChainParams := some p } := by
  rw [SelectParams_eq] at h ⊢
  cases hb : env.SelectBaseParams network with
  | ok u =>
    cases u
    rw [hb] at h
    cases hc : (CreateChainParams env network σ).1 with
    | ok p => exact ⟨p, rfl, rfl⟩
    | throw e => rw [hc] at h; cases h
    | abort => rw [hc] at h; cases h
  | throw e => rw [hb] at h; cases h
  | abort => rw [hb] at h; cases h

/-! ### The checkpoint map keeps its keys in order -/

theorem MapCheckpoints.mem_insert {m : MapCheckpoints} {e x : Int × uint256}
    (h : x ∈ MapCheckpoints.insert m e) : x = e ∨ x ∈ m := by
  induction m with
  | nil =>
    simp only [MapCheckpoints.insert, List.mem_singleton] at h
    exact Or.inl h
  | cons y ys ih =>
    unfold MapCheckpoints.insert at h
    split_ifs at h with h1 h2
    · rcases List.mem_cons.mp h with h | h
      · exact Or.inl h
      · exact Or.inr h
    · exact Or.inr h
    · rcases List.mem_cons.mp h with h | h
      · exact Or.inr (h ▸ List.mem_cons_self _ _)
      · rcases ih h with h | h
        · exact Or.inl h
        · exact Or.inr (List.mem_cons_of_mem _ h)

theorem MapCheckpoints.insert_ascending {m : MapCheckpoints} (e : Int × uint256)
    (h : MapCheckpoints.Ascending m) : MapCheckpoints.Ascending (MapCheckpoints.insert m e) := by
  induction m with
  | nil => exact List.pairwise_singleton _ _
  | cons y ys ih =>
    obtain ⟨hy, hys⟩ := List.pairwise_cons.mp h
    unfold MapCheckpoints.insert
    split_ifs with h1 h2
    · refine List.pairwise_cons.mpr ⟨?_, h⟩
      intro z hz
      rcases List.mem_cons.mp hz with hz | hz
      · rw [hz]; exact h1
      · exact lt_trans h1 (hy z hz)
    · exact h
    · refine List.pairwise_cons.mpr ⟨?_, ih hys⟩
      intro z hz
      rcases MapCheckpoints.mem_insert hz with hz | hz
      · rw [hz]
        exact lt_of_le_of_ne (not_lt.mp h1) (fun hc => h2 hc.symm)
      · exact hy z hz

theorem MapCheckpoints.foldl_insert_ascending (l : List (Int × uint256)) (m : MapCheckpoints)
    (h : MapCheckpoints.Ascending m) :
    MapCheckpoints.Ascending (l.foldl MapCheckpoints.insert m) := by
  induction l generalizing m with
  | nil => exact h
  | cons e es ih => exact ih _ (MapCheckpoints.insert_ascending e h)

/-- Whatever the initializer list, the constructed map is height-ascending
and height-unique. -/
theorem MapCheckpoints.ofList_ascending (l : List (Int × uint256)) :
    MapCheckpoints.Ascending (MapCheckpoints.ofList l) :=
  MapCheckpoints.foldl_insert_ascending l [] List.Pairwise.nil

/-- The four bytes of a magic prefix, in order. -/
theorem ofFn_four (f : Fin 4 → Nat) : List.ofFn f = [f 0, f 1, f 2, f 3] := by
  simp only [List.ofFn_succ, List.ofFn_zero]
  rfl

/-! ## The claims -/

/-- C1: for every identifier string `s`, `CreateChainParams(s)` throws the
"unknown chain" error exactly when `s` is none of `main`, `test`, `regtest`;
it throws no other exception; and whatever its outcome, the slot
`globalChainParams` is left as it was. -/
theorem CreateChainParams_unknown_chain_iff (env : Env) (s : String) (σ : GlobalState) :
    ((CreateChainParams env s σ).1 = Outcome.throw (unknownChainMessage s) ↔
      (s ≠ "main" ∧ s ≠ "test" ∧ s ≠ "regtest")) ∧
    (∀ e, (CreateChainParams env s σ).1 = Outcome.throw e → e = unknownChainMessage s) ∧
    (CreateChainParams env s σ).2 = σ := by
  refine ⟨?_, ?_, CreateChainParams_snd env s σ⟩
  · by_cases h1 : s = "main"
    · subst h1
      rw [CreateChainParams_main]
      exact ⟨fun h => absurd h (CMainParams_ne_throw env _), fun h => absurd rfl h.1⟩
    · by_cases h2 : s = "test"
      · subst h2
        rw [CreateChainParams_test]
        exact ⟨fun h => absurd h (CTestNetParams_ne_throw env _), fun h => absurd rfl h.2.1⟩
      · by_cases h3 : s = "regtest"
        · subst h3
          rw [CreateChainParams_regtest]
          exact ⟨fun h => absurd h (CRegTestParams_ne_throw env _),
            fun h => absurd rfl h.2.2⟩
        · exact ⟨fun _ => ⟨h1, h2, h3⟩, fun _ => CreateChainParams_other env s σ h1 h2 h3⟩
  · intro e he
    by_cases h1 : s = "main"
    · subst h1
      rw [CreateChainParams_main] at he
      exact absurd he (CMainParams_ne_throw env _)
    · by_cases h2 : s = "test"
      · subst h2
        rw [CreateChainParams_test] at he
        exact absurd he (CTestNetParams_ne_throw env _)
      · by_cases h3 : s = "regtest"
        · subst h3
          rw [CreateChainParams_regtest] at he
          exact absurd he (CRegTestParams_ne_throw env _)
        · rw [CreateChainParams_other env s σ h1 h2 h3] at he
          cases he; rfl

/-- Witness for C1: `bogus` is rejected with the message naming it, `regtest`
is not rejected, and the slot is passed through. -/
theorem CreateChainParams_unknown_chain_iff_witness :
    (CreateChainParams publishedEnv "bogus" GlobalState.initial).1
      = Outcome.throw "CreateChainParams: Unknown chain bogus." ∧
    (CreateChainParams publishedEnv "regtest" GlobalState.initial).1
      ≠ Outcome.throw (unknownChainMessage "regtest") ∧
    (CreateChainParams publishedEnv "bogus" { globalChainParams := some publishedMain }).2
      = { globalChainParams := some publishedMain } :=
  ⟨(CreateChainParams_unknown_chain_iff publishedEnv "bogus" GlobalState.initial).1.mpr
      (by decide),
    fun h => ((CreateChainParams_unknown_chain_iff publishedEnv "regtest"
      GlobalState.initial).1.mp h).2.2 rfl,
    (CreateChainParams_unknown_chain_iff publishedEnv "bogus"
      { globalChainParams := some publishedMain }).2.2⟩

/-- C2: each of the three constructors is genesis-checked against its
literals, under any behaviour of `CreateGenesisBlock` and `GetHash`: it
returns a set exactly when the computed header hash and the computed Merkle
root both equal the literals, it aborts on any mismatch, and every returned
set has `hashGenesisBlock` equal to the literal hash. -/
theorem constructors_verify_genesis :
    GenesisChecked CMainParams 1593684000 1500976653 0x1e0fffff
      0x535120a6420fb5d6a859ccc08162608862fe8933bb526da3d062da9c126b5863
      0x2d20099ca5b8bd26f9d1f4ca06d6d8779df3baac617814cc82278039ca7a82e3 ∧
    GenesisChecked CTestNetParams 1593058560 1000001936 0x1f00ffff
      0xbc284f3c9e9538048a36bfaa3f50052b55e28b7d1b1b797bfd16863f829661f9
      0x03aadc9d3bf9f6d0ab03858ee12d1f3bdc89bea2676fde4f44235538c3c1c7b2 ∧
    GenesisChecked CRegTestParams 1565753832 300011609 0x1f00ffff
      0x65f8e03c5b49085a78e5422d637aaf02e7d8fc7ce93be8f563e4032854731e41
      0x7a12d0f54abd64da88bbe04907daa662a18ee900e886e1e98f78b934f9ca18e7 := by
  refine ⟨?_, ?_, ?_⟩
  · rw [← uint256S_mainGenesisHash, ← uint256S_mainMerkleRoot]
    exact genesisChecked_of_outcome CMainParams_outcome
      (fun env p hp => ⟨(CMainParams_built hp).hashGenesisBlock, (CMainParams_built hp).genesis⟩)
  · rw [← uint256S_testGenesisHash, ← uint256S_testMerkleRoot]
    exact genesisChecked_of_outcome CTestNetParams_outcome
      (fun env p hp =>
        ⟨(CTestNetParams_built hp).hashGenesisBlock, (CTestNetParams_built hp).genesis⟩)
  · rw [← uint256S_regtestGenesisHash, ← uint256S_regtestMerkleRoot]
    exact genesisChecked_of_outcome CRegTestParams_outcome
      (fun env p hp =>
        ⟨(CRegTestParams_built hp).hashGenesisBlock, (CRegTestParams_built hp).genesis⟩)

/-- Witness for C2: under `publishedEnv` the main constructor returns a set
whose genesis hash is the literal; under `brokenEnv`, whose digest is
constantly zero, it aborts. -/
theorem constructors_verify_genesis_witness :
    (∃ p, CMainParams publishedEnv = Outcome.ok p) ∧
    publishedMain.consensus.hashGenesisBlock
      = 0x535120a6420fb5d6a859ccc08162608862fe8933bb526da3d062da9c126b5863 ∧
    CMainParams brokenEnv = Outcome.abort :=
  ⟨(constructors_verify_genesis.1 publishedEnv).1.mpr (by decide),
    ((constructors_verify_genesis.1 publishedEnv).2.2 publishedMain
      CMainParams_publishedEnv).1,
    (constructors_verify_genesis.1 brokenEnv).2.1 (by decide)⟩

/-- C3: for every identifier and every prior state of the slot (empty or
already holding a set), when `SelectParams(id)` returns, the factory has
built a set for `id`, `Params()` returns that same set, and the slot is
non-empty. The identifiers for which the call can return are `main`, `test`
and `regtest`. -/
theorem SelectParams_installs_created_set (env : Env) (id : String) (σ : GlobalState)
    (hok : (SelectParams env id σ).1 = Outcome.ok ()) :
    (id = "main" ∨ id = "test" ∨ id = "regtest") ∧
    ∃ p, (CreateChainParams env id σ).1 = Outcome.ok p ∧
      Params (SelectParams env id σ).2 = Outcome.ok p ∧
      (SelectParams env id σ).2.globalChainParams = some p := by
  obtain ⟨p, hp, hs⟩ := SelectParams_state_of_ok env id σ hok
  refine ⟨?_, p, hp, ?_, ?_⟩
  · by_contra hne
    push_neg at hne
    rw [CreateChainParams_other env id σ hne.1 hne.2.1 hne.2.2] at hp
    cases hp
  · rw [hs]; rfl
  · rw [hs]

/-- Witness for C3: under `publishedEnv`, selecting `main` over a slot that
already holds the regression-test set returns and installs the main set. -/
theorem SelectParams_installs_created_set_witness :
    (SelectParams publishedEnv "main" { globalChainParams := some publishedRegTest }).1
        = Outcome.ok () ∧
      Params (SelectParams publishedEnv "main"
        { globalChainParams := some publishedRegTest }).2 = Outcome.ok publishedMain :=
  ⟨by decide, by
    obtain ⟨_, p, hp, hq, _⟩ := SelectParams_installs_created_set publishedEnv "main"
      { globalChainParams := some publishedRegTest } (by decide)
    rw [CreateChainParams_main, CMainParams_publishedEnv] at hp
    cases hp
    exact hq⟩

/-- C4: in the initial state `Params()` aborts; it aborts whenever the slot
is empty, it returns a set exactly when the slot holds one (and then that
very set), and a `SelectParams` call that does not return leaves an empty
slot empty, so that `Params()` still aborts. -/
theorem Params_aborts_when_unselected :
    Params GlobalState.initial = Outcome.abort ∧
    (∀ σ : GlobalState, σ.globalChainParams = none → Params σ = Outcome.abort) ∧
    (∀ (σ : GlobalState) (p : CChainParams),
      Params σ = Outcome.ok p ↔ σ.globalChainParams = some p) ∧
    (∀ σ : GlobalState, (∃ p, Params σ = Outcome.ok p) ↔ σ.globalChainParams ≠ none) ∧
    (∀ (env : Env) (id : String) (σ : GlobalState), σ.globalChainParams = none →
      (SelectParams env id σ).1 ≠ Outcome.ok () →
      Params (SelectParams env id σ).2 = Outcome.abort) := by
  refine ⟨Params_none _ rfl, Params_none, Params_ok_iff, ?_, ?_⟩
  · intro σ
    constructor
    · rintro ⟨p, hp⟩ hnone
      rw [Params_none σ hnone] at hp
      cases hp
    · intro hne
      cases hg : σ.globalChainParams with
      | none => exact absurd hg hne
      | some p => exact ⟨p, Params_some σ p hg⟩
  · intro env id σ hnone hfail
    rw [SelectParams_state_of_not_ok env id σ hfail]
    exact Params_none σ hnone

/-- Witness for C4: a rejected `SelectParams("bogus")` on the initial state
leaves `Params()` aborting, while a slot holding the main set is read
back. -/
theorem Params_aborts_when_unselected_witness :
    (SelectParams publishedEnv "bogus" GlobalState.initial).1 ≠ Outcome.ok () ∧
    Params (SelectParams publishedEnv "bogus" GlobalState.initial).2 = Outcome.abort ∧
    Params { globalChainParams := some publishedMain } = Outcome.ok publishedMain :=
  ⟨by decide,
    Params_aborts_when_unselected.2.2.2.2 publishedEnv "bogus" GlobalState.initial rfl
      (by decide),
    (Params_aborts_when_unselected.2.2.1 _ _).mpr rfl⟩

/-- Counterexample to C5: the public-key address prefixes of the three sets
are not pairwise distinct; under `publishedEnv` all three sets are built and
the test and regression-test sets carry the same prefix. -/
theorem pubkey_prefixes_not_pairwise_distinct :
    ¬ (∀ (env : Env) (pm pt pr : CChainParams),
        CMainParams env = Outcome.ok pm → CTestNetParams env = Outcome.ok pt →
        CRegTestParams env = Outcome.ok pr →
        pm.base58Prefixes PUBKEY_ADDRESS ≠ pt.base58Prefixes PUBKEY_ADDRESS ∧
        pm.base58Prefixes PUBKEY_ADDRESS ≠ pr.base58Prefixes PUBKEY_ADDRESS ∧
        pt.base58Prefixes PUBKEY_ADDRESS ≠ pr.base58Prefixes PUBKEY_ADDRESS) := by
  intro h
  have hd := (h publishedEnv publishedMain publishedTest publishedRegTest
    CMainParams_publishedEnv CTestNetParams_publishedEnv CRegTestParams_publishedEnv).2.2
  apply hd
  rw [(CTestNetParams_built CTestNetParams_publishedEnv).pubkeyPrefix,
    (CRegTestParams_built CRegTestParams_publishedEnv).pubkeyPrefix]

/-- C5, amended: the main set's public-key address prefix (`0x42`) differs
from the test set's and from the regression-test set's; the test and
regression-test sets carry the same prefix (`0x80`). -/
theorem pubkey_prefix_main_differs_test_regtest_agree (env : Env) (pm pt pr : CChainParams)
    (hm : CMainParams env = Outcome.ok pm) (ht : CTestNetParams env = Outcome.ok pt)
    (hr : CRegTestParams env = Outcome.ok pr) :
    pm.base58Prefixes PUBKEY_ADDRESS = [0x42] ∧
    pt.base58Prefixes PUBKEY_ADDRESS = [0x80] ∧
    pr.base58Prefixes PUBKEY_ADDRESS = [0x80] ∧
    pm.base58Prefixes PUBKEY_ADDRESS ≠ pt.base58Prefixes PUBKEY_ADDRESS ∧
    pm.base58Prefixes PUBKEY_ADDRESS ≠ pr.base58Prefixes PUBKEY_ADDRESS ∧
    pt.base58Prefixes PUBKEY_ADDRESS = pr.base58Prefixes PUBKEY_ADDRESS := by
  have h1 := (CMainParams_built hm).pubkeyPrefix
  have h2 := (CTestNetParams_built ht).pubkeyPrefix
  have h3 := (CRegTestParams_built hr).pubkeyPrefix
  refine ⟨h1, h2, h3, ?_, ?_, ?_⟩
  · rw [h1, h2]; decide
  · rw [h1, h3]; decide
  · rw [h2, h3]

/-- Witness for the amended C5, at the three sets built under
`publishedEnv`. -/
theorem pubkey_prefix_main_differs_test_regtest_agree_witness :
    CMainParams publishedEnv = Outcome.ok publishedMain ∧
    CTestNetParams publishedEnv = Outcome.ok publishedTest ∧
    CRegTestParams publishedEnv = Outcome.ok publishedRegTest ∧
    publishedMain.base58Prefixes PUBKEY_ADDRESS ≠ publishedTest.base58Prefixes PUBKEY_ADDRESS ∧
    publishedTest.base58Prefixes PUBKEY_ADDRESS
      = publishedRegTest.base58Prefixes PUBKEY_ADDRESS :=
  have h := pubkey_prefix_main_differs_test_regtest_agree publishedEnv publishedMain
    publishedTest publishedRegTest CMainParams_publishedEnv CTestNetParams_publishedEnv
    CRegTestParams_publishedEnv
  ⟨CMainParams_publishedEnv, CTestNetParams_publishedEnv, CRegTestParams_publishedEnv,
    h.2.2.2.1, h.2.2.2.2.2⟩

/-- C6: the 4-byte magic prefixes `pchMessageStart` of the main, test and
regression-test sets are pairwise distinct as 4-byte sequences. -/
theorem message_start_pairwise_distinct (env : Env) (pm pt pr : CChainParams)
    (hm : CMainParams env = Outcome.ok pm) (ht : CTestNetParams env = Outcome.ok pt)
    (hr : CRegTestParams env = Outcome.ok pr) :
    List.ofFn pm.pchMessageStart = [0xfb, 0xf3, 0xef, 0xb4] ∧
    List.ofFn pt.pchMessageStart = [0xcb, 0xf2, 0xc3, 0xef] ∧
    List.ofFn pr.pchMessageStart = [0xcb, 0xf2, 0xc0, 0xef] ∧
    pm.pchMessageStart ≠ pt.pchMessageStart ∧
    pm.pchMessageStart ≠ pr.pchMessageStart ∧
    pt.pchMessageStart ≠ pr.pchMessageStart := by
  have bm := CMainParams_built hm
  have bt := CTestNetParams_built ht
  have br := CRegTestParams_built hr
  refine ⟨?_, ?_, ?_, ?_, ?_, ?_⟩
  · rw [ofFn_four, bm.magic0, bm.magic1, bm.magic2, bm.magic3]
  · rw [ofFn_four, bt.magic0, bt.magic1, bt.magic2, bt.magic3]
  · rw [ofFn_four, br.magic0, br.magic1, br.magic2, br.magic3]
  · intro h
    have h0 := congrFun h 0
    rw [bm.magic0, bt.magic0] at h0
    exact absurd h0 (by decide)
  · intro h
    have h0 := congrFun h 0
    rw [bm.magic0, br.magic0] at h0
    exact absurd h0 (by decide)
  · intro h
    have h2 := congrFun h 2
    rw [bt.magic2, br.magic2] at h2
    exact absurd h2 (by decide)

/-- Witness for C6, at the three sets built under `publishedEnv`. -/
theorem message_start_pairwise_distinct_witness :
    CMainParams publishedEnv = Outcome.ok publishedMain ∧
    CTestNetParams publishedEnv = Outcome.ok publishedTest ∧
    CRegTestParams publishedEnv = Outcome.ok publishedRegTest ∧
    publishedMain.pchMessageStart ≠ publishedTest.pchMessageStart ∧
    publishedMain.pchMessageStart ≠ publishedRegTest.pchMessageStart ∧
    publishedTest.pchMessageStart ≠ publishedRegTest.pchMessageStart :=
  have h := message_start_pairwise_distinct publishedEnv publishedMain publishedTest
    publishedRegTest CMainParams_publishedEnv CTestNetParams_publishedEnv
    CRegTestParams_publishedEnv
  ⟨CMainParams_publishedEnv, CTestNetParams_publishedEnv, CRegTestParams_publishedEnv,
    h.2.2.2⟩

/-- C7 (the code departs from it): in every set `CMainParams` returns the
checkpoint table is height-ascending and height-unique, but its entry at
height 0 is `843a90aa...a14e` while the set's genesis hash is
`535120a6...5863`; in every set `CTestNetParams` returns the entry at height
0 is `c4fa9f6a...5a06` while the genesis hash is `bc284f3c...61f9`. -/
theorem main_test_checkpoint_differs_from_genesis (env : Env) (pm pt : CChainParams)
    (hm : CMainParams env = Outcome.ok pm) (ht : CTestNetParams env = Outcome.ok pt) :
    (MapCheckpoints.Ascending pm.checkpointData.mapCheckpoints ∧
      MapCheckpoints.find pm.checkpointData.mapCheckpoints 0
        = some 0x843a90aa80dd935bd6a567337d53e391f9e7729d18ff7138c9a1cb6f7148a14e ∧
      pm.consensus.hashGenesisBlock
        = 0x535120a6420fb5d6a859ccc08162608862fe8933bb526da3d062da9c126b5863 ∧
      MapCheckpoints.find pm.checkpointData.mapCheckpoints 0
        ≠ some pm.consensus.hashGenesisBlock) ∧
    (MapCheckpoints.Ascending pt.checkpointData.mapCheckpoints ∧
      MapCheckpoints.find pt.checkpointData.mapCheckpoints 0
        = some 0xc4fa9f6a00492ad14854ae03bf02dfd2aaff667349d806092b13d829674e5a06 ∧
      pt.consensus.hashGenesisBlock
        = 0xbc284f3c9e9538048a36bfaa3f50052b55e28b7d1b1b797bfd16863f829661f9 ∧
      MapCheckpoints.find pt.checkpointData.mapCheckpoints 0
        ≠ some pt.consensus.hashGenesisBlock) := by
  have bm := CMainParams_built hm
  have bt := CTestNetParams_built ht
  have cm : MapCheckpoints.find pm.checkpointData.mapCheckpoints 0
      = some 0x843a90aa80dd935bd6a567337d53e391f9e7729d18ff7138c9a1cb6f7148a14e := by
    rw [bm.mapCheckpoints, uint256S_mainCheckpoint]; rfl
  have ct : MapCheckpoints.find pt.checkpointData.mapCheckpoints 0
      = some 0xc4fa9f6a00492ad14854ae03bf02dfd2aaff667349d806092b13d829674e5a06 := by
    rw [bt.mapCheckpoints, uint256S_testCheckpoint]; rfl
  have gm := bm.hashGenesisBlock
  have gt := bt.hashGenesisBlock
  rw [uint256S_mainGenesisHash] at gm
  rw [uint256S_testGenesisHash] at gt
  refine ⟨⟨?_, cm, gm, ?_⟩, ⟨?_, ct, gt, ?_⟩⟩
  · rw [bm.mapCheckpoints]; exact List.pairwise_singleton _ _
  · rw [cm, gm]; decide
  · rw [bt.mapCheckpoints]; exact List.pairwise_singleton _ _
  · rw [ct, gt]; decide

/-- Witness for C7's evaluation, at the main and test sets built under
`publishedEnv`. -/
theorem main_test_checkpoint_differs_from_genesis_witness :
    CMainParams publishedEnv = Outcome.ok publishedMain ∧
    CTestNetParams publishedEnv = Outcome.ok publishedTest ∧
    MapCheckpoints.find publishedMain.checkpointData.mapCheckpoints 0
      ≠ some publishedMain.consensus.hashGenesisBlock ∧
    MapCheckpoints.find publishedTest.checkpointData.mapCheckpoints 0
      ≠ some publishedTest.consensus.hashGenesisBlock :=
  have h := main_test_checkpoint_differs_from_genesis publishedEnv publishedMain publishedTest
    CMainParams_publishedEnv CTestNetParams_publishedEnv
  ⟨CMainParams_publishedEnv, CTestNetParams_publishedEnv, h.1.2.2.2, h.2.2.2.2⟩

/-- C8: every set `CRegTestParams` returns has a checkpoint table with
exactly one entry, at height 0, whose hash is that set's own
`consensus.hashGenesisBlock`. -/
theorem regtest_checkpoint_is_genesis (env : Env) (p : CChainParams)
    (h : CRegTestParams env = Outcome.ok p) :
    p.checkpointData.mapCheckpoints = [(0, p.consensus.hashGenesisBlock)] ∧
    p.checkpointData.mapCheckpoints.length = 1 ∧
    MapCheckpoints.find p.checkpointData.mapCheckpoints 0
      = some p.consensus.hashGenesisBlock := by
  have b := CRegTestParams_built h
  have hc : p.checkpointData.mapCheckpoints = [(0, p.consensus.hashGenesisBlock)] := by
    rw [b.mapCheckpoints, b.hashGenesisBlock]
  refine ⟨hc, ?_, ?_⟩
  · rw [hc]; rfl
  · rw [hc]; rfl

/-- Witness for C8, at the regression-test set built under `publishedEnv`. -/
theorem regtest_checkpoint_is_genesis_witness :
    CRegTestParams publishedEnv = Outcome.ok publishedRegTest ∧
    publishedRegTest.checkpointData.mapCheckpoints
      = [(0, publishedRegTest.consensus.hashGenesisBlock)] :=
  ⟨CRegTestParams_publishedEnv,
    (regtest_checkpoint_is_genesis publishedEnv publishedRegTest CRegTestParams_publishedEnv).1⟩

/-- C9: in every set returned by any of the three constructors,
`warmUpPOWBlock ≤ nTotalPOWBlock` and `nStakeTargetSpacing > 0`. -/
theorem pow_phase_and_spacing_invariant (env : Env) (p : CChainParams)
    (h : CMainParams env = Outcome.ok p ∨ CTestNetParams env = Outcome.ok p ∨
      CRegTestParams env = Outcome.ok p) :
    p.consensus.warmUpPOWBlock ≤ p.consensus.nTotalPOWBlock ∧
    0 < p.consensus.nStakeTargetSpacing := by
  rcases h with h | h | h
  · have b := CMainParams_built h
    rw [b.warmUpPOWBlock, b.nTotalPOWBlock, b.nStakeTargetSpacing]
    decide
  · have b := CTestNetParams_built h
    rw [b.warmUpPOWBlock, b.nTotalPOWBlock, b.nStakeTargetSpacing]
    decide
  · have b := CRegTestParams_built h
    rw [b.warmUpPOWBlock, b.nTotalPOWBlock, b.nStakeTargetSpacing]
    decide

/-- Witness for C9, at each of the three sets built under `publishedEnv`:
the main, the test and the regression-test constructor all return a set, and
each set satisfies both inequalities. -/
theorem pow_phase_and_spacing_invariant_witness :
    (CMainParams publishedEnv = Outcome.ok publishedMain ∧
      publishedMain.consensus.warmUpPOWBlock ≤ publishedMain.consensus.nTotalPOWBlock ∧
      0 < publishedMain.consensus.nStakeTargetSpacing) ∧
    (CTestNetParams publishedEnv = Outcome.ok publishedTest ∧
      publishedTest.consensus.warmUpPOWBlock ≤ publishedTest.consensus.nTotalPOWBlock ∧
      0 < publishedTest.consensus.nStakeTargetSpacing) ∧
    (CRegTestParams publishedEnv = Outcome.ok publishedRegTest ∧
      publishedRegTest.consensus.warmUpPOWBlock
        ≤ publishedRegTest.consensus.nTotalPOWBlock ∧
      0 < publishedRegTest.consensus.nStakeTargetSpacing) :=
  ⟨⟨CMainParams_publishedEnv,
      pow_phase_and_spacing_invariant publishedEnv publishedMain
        (Or.inl CMainParams_publishedEnv)⟩,
    ⟨CTestNetParams_publishedEnv,
      pow_phase_and_spacing_invariant publishedEnv publishedTest
        (Or.inr (Or.inl CTestNetParams_publishedEnv))⟩,
    ⟨CRegTestParams_publishedEnv,
      pow_phase_and_spacing_invariant publishedEnv publishedRegTest
        (Or.inr (Or.inr CRegTestParams_publishedEnv))⟩⟩

/-- C10: every set `CRegTestParams` returns has minimum-difficulty relaxation
and retargeting suppression both enabled, requires zero peers before mining,
and has an empty fixed-seed list and an empty DNS-seed list. -/
theorem regtest_relaxed_settings (env : Env) (p : CChainParams)
    (h : CRegTestParams env = Outcome.ok p) :
    p.consensus.fPowAllowMinDifficultyBlocks = true ∧
    p.consensus.fPowNoRetargeting = true ∧
    p.nMiningRequiresPeers = 0 ∧
    p.vFixedSeeds = [] ∧
    p.vSeeds = [] :=
  have b := CRegTestParams_built h
  ⟨b.fPowAllowMinDifficultyBlocks, b.fPowNoRetargeting, b.nMiningRequiresPeers,
    b.vFixedSeeds, b.vSeeds⟩

/-- Witness for C10, at the regression-test set built under `publishedEnv`. -/
theorem regtest_relaxed_settings_witness :
    CRegTestParams publishedEnv = Outcome.ok publishedRegTest ∧
    publishedRegTest.consensus.fPowAllowMinDifficultyBlocks = true ∧
    publishedRegTest.consensus.fPowNoRetargeting = true ∧
    publishedRegTest.nMiningRequiresPeers = 0 ∧
    publishedRegTest.vFixedSeeds = [] ∧
    publishedRegTest.vSeeds = [] :=
  ⟨CRegTestParams_publishedEnv,
    regtest_relaxed_settings publishedEnv publishedRegTest CRegTestParams_publishedEnv⟩

/-! ### Further facts about the factory and about runs of selections -/

/-- A set the factory returns was built by the constructor its identifier
names. -/
theorem CreateChainParams_ok_cases {env : Env} {chain : String} {σ : GlobalState}
    {p : CChainParams} (h : (CreateChainParams env chain σ).1 = Outcome.ok p) :
    (chain = "main" ∧ CMainParams env = Outcome.ok p) ∨
    (chain = "test" ∧ CTestNetParams env = Outcome.ok p) ∨
    (chain = "regtest" ∧ CRegTestParams env = Outcome.ok p) := by
  by_cases h1 : chain = "main"
  · subst h1
    rw [CreateChainParams_main] at h
    exact Or.inl ⟨rfl, h⟩
  · by_cases h2 : chain = "test"
    · subst h2
      rw [CreateChainParams_test] at h
      exact Or.inr (Or.inl ⟨rfl, h⟩)
    · by_cases h3 : chain = "regtest"
      · subst h3
        rw [CreateChainParams_regtest] at h
        exact Or.inr (Or.inr ⟨rfl, h⟩)
      · rw [CreateChainParams_other env chain σ h1 h2 h3] at h
        cases h

/-- The outcome of the factory does not depend on the state. -/
theorem CreateChainParams_fst_state (env : Env) (chain : String) (σ1 σ2 : GlobalState) :
    (CreateChainParams env chain σ1).1 = (CreateChainParams env chain σ2).1 := by
  unfold CreateChainParams
  split_ifs <;> rfl

/-- A slot that holds a set still holds one after any `SelectParams` call. -/
theorem SelectParams_keeps_selected (env : Env) (id : String) (σ : GlobalState)
    (h : σ.globalChainParams ≠ none) :
    (SelectParams env id σ).2.globalChainParams ≠ none := by
  by_cases hok : (SelectParams env id σ).1 = Outcome.ok ()
  · obtain ⟨p, _, hs⟩ := SelectParams_state_of_ok env id σ hok
    rw [hs]
    exact Option.some_ne_none p
  · rw [SelectParams_state_of_not_ok env id σ hok]
    exact h

theorem selectAll_keeps_selected (env : Env) (ids : List String) (σ : GlobalState)
    (h : σ.globalChainParams ≠ none) :
    (selectAll env ids σ).globalChainParams ≠ none := by
  induction ids generalizing σ with
  | nil => exact h
  | cons id ids ih =>
    unfold selectAll
    split_ifs
    · exact SelectParams_keeps_selected env id σ h
    · exact ih _ (SelectParams_keeps_selected env id σ h)

/-- A run in which no call returns ends in the state it started in. -/
theorem selectAll_of_all_fail (env : Env) (ids : List String) (σ : GlobalState)
    (h : ∀ id ∈ ids, ∀ σ1 : GlobalState, (SelectParams env id σ1).1 ≠ Outcome.ok ()) :
    selectAll env ids σ = σ := by
  induction ids generalizing σ with
  | nil => rfl
  | cons id ids ih =>
    have hid := SelectParams_state_of_not_ok env id σ (h id (List.mem_cons_self _ _) σ)
    unfold selectAll
    split_ifs
    · exact hid
    · rw [hid]
      exact ih σ (fun j hj => h j (List.mem_cons_of_mem _ hj))

/-- The outcome of `SelectParams` does not depend on the state. -/
theorem SelectParams_fst_state (env : Env) (id : String) (σ1 σ2 : GlobalState) :
    (SelectParams env id σ1).1 = (SelectParams env id σ2).1 := by
  rw [SelectParams_eq, SelectParams_eq, CreateChainParams_fst_state env id σ1 σ2]
  cases env.SelectBaseParams id with
  | ok u =>
    cases u
    cases (CreateChainParams env id σ2).1 <;> rfl
  | throw e => rfl
  | abort => rfl

/-- After a call that does not abort, the run goes on with the remaining
identifiers. -/
theorem selectAll_cons (env : Env) (id : String) (ids : List String) (σ : GlobalState)
    (h : (SelectParams env id σ).1 ≠ Outcome.abort) :
    selectAll env (id :: ids) σ = selectAll env ids (SelectParams env id σ).2 := by
  rw [selectAll, if_neg h]

/-- A run whose first part contains no aborting call continues with the
rest. -/
theorem selectAll_append (env : Env) (pre rest : List String) (σ : GlobalState)
    (h : ∀ j ∈ pre, ∀ σ1 : GlobalState, (SelectParams env j σ1).1 ≠ Outcome.abort) :
    selectAll env (pre ++ rest) σ = selectAll env rest (selectAll env pre σ) := by
  induction pre generalizing σ with
  | nil => rfl
  | cons j js ih =>
    have hj := h j (List.mem_cons_self _ _) σ
    rw [List.cons_append, selectAll_cons env j (js ++ rest) σ hj, selectAll_cons env j js σ hj]
    exact ih _ (fun k hk => h k (List.mem_cons_of_mem _ hk))

/-! ### What a constructor takes from the base object -/

/-- C11: the test set accepts non-standard transactions
(`fRequireStandard = false`) and differs from the main set in its magic
prefix, its default port, each of its five base58 prefixes and its bech32
human-readable prefix. -/
theorem test_differs_from_main (env : Env) (pm pt : CChainParams)
    (hm : CMainParams env = Outcome.ok pm) (ht : CTestNetParams env = Outcome.ok pt) :
    pt.fRequireStandard = false ∧
    pt.pchMessageStart ≠ pm.pchMessageStart ∧
    pt.nDefaultPort ≠ pm.nDefaultPort ∧
    pt.base58Prefixes PUBKEY_ADDRESS ≠ pm.base58Prefixes PUBKEY_ADDRESS ∧
    pt.base58Prefixes SCRIPT_ADDRESS ≠ pm.base58Prefixes SCRIPT_ADDRESS ∧
    pt.base58Prefixes SECRET_KEY ≠ pm.base58Prefixes SECRET_KEY ∧
    pt.base58Prefixes EXT_PUBLIC_KEY ≠ pm.base58Prefixes EXT_PUBLIC_KEY ∧
    pt.base58Prefixes EXT_SECRET_KEY ≠ pm.base58Prefixes EXT_SECRET_KEY ∧
    pt.bech32_hrp ≠ pm.bech32_hrp := by
  have bm := CMainParams_built hm
  have bt := CTestNetParams_built ht
  refine ⟨bt.fRequireStandard, ?_, ?_, ?_, ?_, ?_, ?_, ?_, ?_⟩
  · intro h
    have h0 := congrFun h 0
    rw [bm.magic0, bt.magic0] at h0
    exact absurd h0 (by decide)
  · rw [bt.nDefaultPort, bm.nDefaultPort]; decide
  · rw [bt.pubkeyPrefix, bm.pubkeyPrefix]; decide
  · rw [bt.scriptPrefix, bm.scriptPrefix]; decide
  · rw [bt.secretPrefix, bm.secretPrefix]; decide
  · rw [bt.extPublicPrefix, bm.extPublicPrefix]; decide
  · rw [bt.extSecretPrefix, bm.extSecretPrefix]; decide
  · rw [bt.bech32_hrp, bm.bech32_hrp]; decide

/-- Witness for C11, at the main and test sets built under `publishedEnv`. -/
theorem test_differs_from_main_witness :
    CMainParams publishedEnv = Outcome.ok publishedMain ∧
    CTestNetParams publishedEnv = Outcome.ok publishedTest ∧
    publishedTest.fRequireStandard = false ∧
    publishedTest.nDefaultPort ≠ publishedMain.nDefaultPort ∧
    publishedTest.bech32_hrp ≠ publishedMain.bech32_hrp :=
  have h := test_differs_from_main publishedEnv publishedMain publishedTest
    CMainParams_publishedEnv CTestNetParams_publishedEnv
  ⟨CMainParams_publishedEnv, CTestNetParams_publishedEnv, h.1, h.2.2.1, h.2.2.2.2.2.2.2.2⟩

/-- C12: every set `CMainParams` returns requires a positive number of peers
before mining (six), enforces the standard-transaction policy, and has
minimum-difficulty relaxation and retargeting suppression both disabled. -/
theorem main_strict_settings (env : Env) (p : CChainParams)
    (h : CMainParams env = Outcome.ok p) :
    0 < p.nMiningRequiresPeers ∧
    p.nMiningRequiresPeers = 6 ∧
    p.fRequireStandard = true ∧
    p.consensus.fPowAllowMinDifficultyBlocks = false ∧
    p.consensus.fPowNoRetargeting = false := by
  have b := CMainParams_built h
  refine ⟨?_, b.nMiningRequiresPeers, b.fRequireStandard, b.fPowAllowMinDifficultyBlocks,
    b.fPowNoRetargeting⟩
  rw [b.nMiningRequiresPeers]; decide

/-- Witness for C12, at the main set built under `publishedEnv`. -/
theorem main_strict_settings_witness :
    CMainParams publishedEnv = Outcome.ok publishedMain ∧
    0 < publishedMain.nMiningRequiresPeers ∧
    publishedMain.fRequireStandard = true :=
  have h := main_strict_settings publishedEnv publishedMain CMainParams_publishedEnv
  ⟨CMainParams_publishedEnv, h.1, h.2.2.1⟩

/-- C14: `SelectParams` is atomic on failure. A call whose construction
throws the unknown-chain error does not return and leaves the slot as it
was, as does every call that does not return. In a run of calls a slot that
holds a set never becomes empty again; and after a run whose last returning
call is the one for `id`, `Params()` returns the set built for `id`. -/
theorem SelectParams_atomic_on_failure (env : Env) :
    (∀ (id : String) (σ : GlobalState),
      (CreateChainParams env id σ).1 = Outcome.throw (unknownChainMessage id) →
      (SelectParams env id σ).1 ≠ Outcome.ok () ∧ (SelectParams env id σ).2 = σ) ∧
    (∀ (id : String) (σ : GlobalState), (SelectParams env id σ).1 ≠ Outcome.ok () →
      (SelectParams env id σ).2 = σ) ∧
    (∀ (ids : List String) (σ : GlobalState), σ.globalChainParams ≠ none →
      (selectAll env ids σ).globalChainParams ≠ none) ∧
    (∀ (before after : List String) (id : String) (σ : GlobalState) (p : CChainParams),
      (∀ j ∈ before, ∀ σ1 : GlobalState, (SelectParams env j σ1).1 ≠ Outcome.abort) →
      (SelectParams env id (selectAll env before σ)).1 = Outcome.ok () →
      (CreateChainParams env id (selectAll env before σ)).1 = Outcome.ok p →
      (∀ j ∈ after, ∀ σ1 : GlobalState, (SelectParams env j σ1).1 ≠ Outcome.ok ()) →
      Params (selectAll env (before ++ id :: after) σ) = Outcome.ok p) := by
  refine ⟨?_, SelectParams_state_of_not_ok env, selectAll_keeps_selected env, ?_⟩
  · intro id σ hthrow
    have hne : (SelectParams env id σ).1 ≠ Outcome.ok () := by
      intro hok
      obtain ⟨p, hp, _⟩ := SelectParams_state_of_ok env id σ hok
      rw [hthrow] at hp
      cases hp
    exact ⟨hne, SelectParams_state_of_not_ok env id σ hne⟩
  · intro before after id σ p hbefore hok hp hafter
    obtain ⟨q, hq, hs⟩ := SelectParams_state_of_ok env id _ hok
    rw [hp] at hq
    cases hq
    have hna : (SelectParams env id (selectAll env before σ)).1 ≠ Outcome.abort := by
      rw [hok]; intro h; cases h
    rw [selectAll_append env before (id :: after) σ hbefore,
      selectAll_cons env id after _ hna, selectAll_of_all_fail env after _ hafter, hs]
    rfl

/-- Witness for C14: under `publishedEnv`, the run `regtest`, `bogus`,
`main`, `nope`, `bogus` from the initial state ends with `Params()`
returning the main set. -/
theorem SelectParams_atomic_on_failure_witness :
    Params (selectAll publishedEnv ["regtest", "bogus", "main", "nope", "bogus"]
      GlobalState.initial) = Outcome.ok publishedMain :=
  (SelectParams_atomic_on_failure publishedEnv).2.2.2 ["regtest", "bogus"] ["nope", "bogus"]
    "main" GlobalState.initial publishedMain
    (fun j hj σ1 => by
      rw [SelectParams_fst_state publishedEnv j σ1 GlobalState.initial]
      revert j
      decide)
    (by decide)
    ((CreateChainParams_main publishedEnv _).trans CMainParams_publishedEnv)
    (fun j hj σ1 => by
      rw [SelectParams_fst_state publishedEnv j σ1 GlobalState.initial]
      revert j
      decide)

/-- The compact bits `0x1e0fffff` decode to `0x0fffff * 256 ^ 27`. -/
theorem SetCompact_mainBits : SetCompact 0x1e0fffff = 0x0fffff * 256 ^ (0x1e - 3) := by
  decide

/-- The compact bits `0x1f00ffff` decode to `0x00ffff * 256 ^ 28`. -/
theorem SetCompact_testBits : SetCompact 0x1f00ffff = 0x00ffff * 256 ^ (0x1f - 3) := by
  decide

/-- C15: in every set a constructor returns, the genesis block was requested
with that network's compact bits (main `0x1e0fffff`, test and regtest
`0x1f00ffff`), and those bits decode, as mantissa times
`256 ^ (exponent - 3)`, to a non-zero 256-bit target that does not exceed
the set's `consensus.powLimit`. -/
theorem genesis_bits_within_powLimit (env : Env) :
    (∀ p, CMainParams env = Outcome.ok p →
      p.genesis = env.CreateGenesisBlock 1593684000 1500976653 0x1e0fffff 1 0 ∧
      SetCompact 0x1e0fffff = 0x0fffff * 256 ^ (0x1e - 3) ∧
      0 < SetCompact 0x1e0fffff ∧ SetCompact 0x1e0fffff < 2 ^ 256 ∧
      SetCompact 0x1e0fffff ≤ p.consensus.powLimit) ∧
    (∀ p, CTestNetParams env = Outcome.ok p →
      p.genesis = env.CreateGenesisBlock 1593058560 1000001936 0x1f00ffff 1 0 ∧
      SetCompact 0x1f00ffff = 0x00ffff * 256 ^ (0x1f - 3) ∧
      0 < SetCompact 0x1f00ffff ∧ SetCompact 0x1f00ffff < 2 ^ 256 ∧
      SetCompact 0x1f00ffff ≤ p.consensus.powLimit) ∧
    (∀ p, CRegTestParams env = Outcome.ok p →
      p.genesis = env.CreateGenesisBlock 1565753832 300011609 0x1f00ffff 1 0 ∧
      SetCompact 0x1f00ffff = 0x00ffff * 256 ^ (0x1f - 3) ∧
      0 < SetCompact 0x1f00ffff ∧ SetCompact 0x1f00ffff < 2 ^ 256 ∧
      SetCompact 0x1f00ffff ≤ p.consensus.powLimit) := by
  refine ⟨?_, ?_, ?_⟩
  · intro p h
    have b := CMainParams_built h
    refine ⟨b.genesis, SetCompact_mainBits, ?_, ?_, ?_⟩
    · rw [SetCompact_mainBits]; decide
    · rw [SetCompact_mainBits]; decide
    · rw [b.powLimit, uint256S_mainPowLimit, SetCompact_mainBits]; decide
  · intro p h
    have b := CTestNetParams_built h
    refine ⟨b.genesis, SetCompact_testBits, ?_, ?_, ?_⟩
    · rw [SetCompact_testBits]; decide
    · rw [SetCompact_testBits]; decide
    · rw [b.powLimit, uint256S_testPowLimit, SetCompact_testBits]; decide
  · intro p h
    have b := CRegTestParams_built h
    refine ⟨b.genesis, SetCompact_testBits, ?_, ?_, ?_⟩
    · rw [SetCompact_testBits]; decide
    · rw [SetCompact_testBits]; decide
    · rw [b.powLimit, uint256S_testPowLimit, SetCompact_testBits]; decide

/-- Witness for C15: in the three sets built under `publishedEnv`, whose
genesis blocks record the bits they were requested with, the decoded target
is non-zero and within the set's `powLimit`. -/
theorem genesis_bits_within_powLimit_witness :
    (publishedMain.genesis.nBits = 0x1e0fffff ∧
      0 < SetCompact publishedMain.genesis.nBits ∧
      SetCompact publishedMain.genesis.nBits ≤ publishedMain.consensus.powLimit) ∧
    (publishedTest.genesis.nBits = 0x1f00ffff ∧
      SetCompact 0x1f00ffff ≤ publishedTest.consensus.powLimit) ∧
    (publishedRegTest.genesis.nBits = 0x1f00ffff ∧
      SetCompact 0x1f00ffff ≤ publishedRegTest.consensus.powLimit) :=
  have hm := (genesis_bits_within_powLimit publishedEnv).1 publishedMain
    CMainParams_publishedEnv
  have ht := (genesis_bits_within_powLimit publishedEnv).2.1 publishedTest
    CTestNetParams_publishedEnv
  have hr := (genesis_bits_within_powLimit publishedEnv).2.2 publishedRegTest
    CRegTestParams_publishedEnv
  have em : publishedMain.genesis.nBits = 0x1e0fffff := by rw [hm.1]; rfl
  have et : publishedTest.genesis.nBits = 0x1f00ffff := by rw [ht.1]; rfl
  have er : publishedRegTest.genesis.nBits = 0x1f00ffff := by rw [hr.1]; rfl
  ⟨⟨em, by rw [em]; exact hm.2.2.1, by rw [em]; exact hm.2.2.2.2⟩,
    ⟨et, ht.2.2.2.2⟩, ⟨er, hr.2.2.2.2⟩⟩

/-- C16: a set that `CreateChainParams(s)` returns carries the network tag
`strNetworkID = s` (and `s` is then one of `main`, `test`, `regtest`), so
sets returned for distinct identifiers carry distinct tags. -/
theorem CreateChainParams_strNetworkID (env : Env) (s1 s2 : String) (σ1 σ2 : GlobalState)
    (p1 p2 : CChainParams) (h1 : (CreateChainParams env s1 σ1).1 = Outcome.ok p1)
    (h2 : (CreateChainParams env s2 σ2).1 = Outcome.ok p2) :
    p1.strNetworkID = s1 ∧ p2.strNetworkID = s2 ∧
    (s1 ≠ s2 → p1.strNetworkID ≠ p2.strNetworkID) := by
  have tag : ∀ (s : String) (σ : GlobalState) (p : CChainParams),
      (CreateChainParams env s σ).1 = Outcome.ok p → p.strNetworkID = s := by
    intro s σ p h
    rcases CreateChainParams_ok_cases h with ⟨e, c⟩ | ⟨e, c⟩ | ⟨e, c⟩
    · rw [e]; exact (CMainParams_built c).strNetworkID
    · rw [e]; exact (CTestNetParams_built c).strNetworkID
    · rw [e]; exact (CRegTestParams_built c).strNetworkID
  have t1 := tag s1 σ1 p1 h1
  have t2 := tag s2 σ2 p2 h2
  exact ⟨t1, t2, fun hne => by rw [t1, t2]; exact hne⟩

/-- Witness for C16: under `publishedEnv` the factory returns a set for each
of `main`, `test` and `regtest`; the three sets carry the tags `main`, `test`
and `regtest`, which are pairwise distinct. -/
theorem CreateChainParams_strNetworkID_witness :
    ((CreateChainParams publishedEnv "main" GlobalState.initial).1 = Outcome.ok publishedMain ∧
      (CreateChainParams publishedEnv "test" GlobalState.initial).1 = Outcome.ok publishedTest ∧
      (CreateChainParams publishedEnv "regtest" GlobalState.initial).1
        = Outcome.ok publishedRegTest) ∧
    (publishedMain.strNetworkID = "main" ∧ publishedTest.strNetworkID = "test" ∧
      publishedRegTest.strNetworkID = "regtest") ∧
    (publishedMain.strNetworkID ≠ publishedTest.strNetworkID ∧
      publishedTest.strNetworkID ≠ publishedRegTest.strNetworkID ∧
      publishedMain.strNetworkID ≠ publishedRegTest.strNetworkID) :=
  have m := (CreateChainParams_main publishedEnv GlobalState.initial).trans
    CMainParams_publishedEnv
  have t := (CreateChainParams_test publishedEnv GlobalState.initial).trans
    CTestNetParams_publishedEnv
  have r := (CreateChainParams_regtest publishedEnv GlobalState.initial).trans
    CRegTestParams_publishedEnv
  have hmt := CreateChainParams_strNetworkID publishedEnv "main" "test" GlobalState.initial
    GlobalState.initial publishedMain publishedTest m t
  have htr := CreateChainParams_strNetworkID publishedEnv "test" "regtest" GlobalState.initial
    GlobalState.initial publishedTest publishedRegTest t r
  have hmr := CreateChainParams_strNetworkID publishedEnv "main" "regtest" GlobalState.initial
    GlobalState.initial publishedMain publishedRegTest m r
  ⟨⟨m, t, r⟩, ⟨hmt.1, hmt.2.1, htr.2.1⟩,
    ⟨hmt.2.2 (by decide), htr.2.2 (by decide), hmr.2.2 (by decide)⟩⟩

end ChainParams
